import Mathlib

/-!
Shallow embedding of the domain layer of the `initiative-tracker` repository
(`src/api/src/models/*.ts`, the migration runner, and the asset store), with
theorems settling the specification claims.

Conventions of the embedding:
* The SQLite store is modelled as explicit lists of rows (one list per table),
  threaded through every operation.
* `Date.now()` is an `Int` parameter (`now`) supplied by the caller.
* Randomness (`randomBytes(..).toString('base64url')`) is an injected `String`
  token parameter.
* Filesystem state is a `List String` of file names; best-effort deletions are
  driven by a failure oracle `fsFail : String → Bool` (`true` models a thrown
  filesystem error, which the source swallows).
* `makeSlug` comes from the external package `@lusc/util/slug` (not part of
  this repository); operations that call it take the resulting base slug as a
  `String` parameter.
* Fallible code returns `Except String _` carrying the source's error message.
-/

/-! ## Session (src/api/src/models/session.ts) -/

/-- Row of the `sessions` table. -/
structure SessionRow where
  sessionId : String
  userId : String
  expires : Int
  createdAt : Int
deriving Repr, DecidableEq

/-- In-memory `Session` instance (id, user and the two timestamps). -/
structure SessionEntity where
  id : String
  userId : String
  expires : Int
  createdAt : Int
deriving Repr, DecidableEq

/-- The constant `Session._SESSION_DURATION_MS` (7 days in milliseconds). -/
def SESSION_DURATION_MS : Int := 7 * 24 * 60 * 60 * 1000

/-- Half of the session TTL. In the source `shouldRenew` compares against
`_SESSION_DURATION_MS * 0.5`; the product is `302400000.0`, exact in floating
point, so integer comparison is faithful. -/
def SESSION_HALF_DURATION_MS : Int := SESSION_DURATION_MS / 2

/-- The code `Session.create(user)`: inserts a row with a fresh high-entropy id
`'s-' + randomBytes(128)` (the random token is the injected `rand`), expiry
`now + _SESSION_DURATION_MS`, and returns the hydrated session. -/
def Session.create (sessions : List SessionRow) (userId rand : String)
    (now : Int) : List SessionRow × SessionEntity :=
  let expires := now + SESSION_DURATION_MS
  let sessionId := "s-" ++ rand
  let row : SessionRow :=
    { sessionId := sessionId, userId := userId, expires := expires, createdAt := now }
  (row :: sessions, { id := sessionId, userId := userId, expires := expires, createdAt := now })

/-- The code `Session.isExpired()`: `this.expiryDate.getTime() < Date.now()`. -/
def Session.isExpired (s : SessionEntity) (now : Int) : Bool :=
  s.expires < now

/-- The code `Session.shouldRenew()`: returns `false` when expired, otherwise
`timeToExpire > 0 && timeToExpire < _SESSION_DURATION_MS * 0.5` where
`timeToExpire = expires - now`. -/
def Session.shouldRenew (s : SessionEntity) (now : Int) : Bool :=
  if Session.isExpired s now then
    false
  else
    let timeToExpire := s.expires - now
    0 < timeToExpire && timeToExpire < SESSION_HALF_DURATION_MS

/-- The code `Session.renew()`: `undefined` when expired, otherwise delegates to
`Session.create(this.user)`; it never deletes the old row. -/
def Session.renew (sessions : List SessionRow) (s : SessionEntity)
    (rand : String) (now : Int) : Option (List SessionRow × SessionEntity) :=
  if Session.isExpired s now then
    none
  else
    some (Session.create sessions s.userId rand now)

/-! ## Migration runner (migration.ts, `src/unnamed/part_002`) -/

/-- One migration module: its parsed numeric id and the (pre-determined)
outcome its `shouldRun(api)` callback returns when invoked. -/
structure Migration where
  id : Int
  shouldRunResult : Bool
deriving Repr, DecidableEq

/-- Observable calls the runner makes, in order: `shouldRun` invocation, `run`
invocation, and persisting the marker file (`writeMigrationState`). -/
inductive MigEvent where
  | shouldRunCalled (id : Int)
  | ranCalled (id : Int)
  | statePersisted (id : Int)
deriving Repr, DecidableEq

/-- The code `readMigrationState`: absence of the `migration-state` file means
`-1`; otherwise the file holds the last-applied id as decimal text (the
corrupted-file branch, which throws, is outside the claims and not modelled:
the file content is modelled as the already-parsed integer). -/
def readMigrationState (file : Option Int) : Int :=
  file.getD (-1)

/-- The loop body of `migrate`: for each migration in order, skip it when
`migration.id <= migrationState`; otherwise call `shouldRun`, call `run` if it
returned true, then set and persist the marker to `migration.id`. -/
def migrateLoop : List Migration → Int → Option Int → Option Int × List MigEvent
  | [], _, file => (file, [])
  | m :: rest, marker, file =>
    if m.id ≤ marker then
      migrateLoop rest marker file
    else
      let events :=
        MigEvent.shouldRunCalled m.id ::
          ((if m.shouldRunResult then [MigEvent.ranCalled m.id] else []) ++
            [MigEvent.statePersisted m.id])
      let (file', tail) := migrateLoop rest m.id (some m.id)
      (file', events ++ tail)

/-- The code `migrate(api)`: returns immediately when there are no migrations,
otherwise reads the persisted marker and runs the loop. Returns the final
persisted marker-file state and the event trace. -/
def migrate (migs : List Migration) (file : Option Int) :
    Option Int × List MigEvent :=
  if migs.isEmpty then
    (file, [])
  else
    migrateLoop migs (readMigrationState file) file

/-- The events produced for a single considered migration. -/
def migrationEvents (m : Migration) : List MigEvent :=
  MigEvent.shouldRunCalled m.id ::
    ((if m.shouldRunResult then [MigEvent.ranCalled m.id] else []) ++
      [MigEvent.statePersisted m.id])

/-! ## Login (src/api/src/models/login.ts) -/

/-- Row of the `logins` table. -/
structure LoginRow where
  userId : String
  username : String
  passwordHash : String
  isAdmin : Bool
  createdAt : Int
  updatedAt : Int
deriving Repr, DecidableEq

/-- The code `Login.fromUsername`: case-insensitive lookup
(`WHERE upper(username) = upper(:username)`). -/
def Login.fromUsername (logins : List LoginRow) (username : String) : Option LoginRow :=
  logins.find? (fun r => r.username.toUpper == username.toUpper)

/-- The code `Login.create(username, password, isAdmin)`: rejects an existing
username (case-insensitively), then inserts with id `'l-' + randomBytes(20)`
(`rand` is the injected token) and the bcrypt hash of the password
(`passwordHash` is injected: bcrypt is an external dependency). -/
def Login.create (logins : List LoginRow) (rand : String)
    (username passwordHash : String) (isAdmin : Bool) (now : Int) :
    Except String (List LoginRow × LoginRow) :=
  match Login.fromUsername logins username with
  | some _ => .error ("User with username " ++ username ++ " already exists.")
  | none =>
    let id := "l-" ++ rand
    let row : LoginRow :=
      { userId := id, username := username, passwordHash := passwordHash,
        isAdmin := isAdmin, createdAt := now, updatedAt := now }
    .ok (row :: logins, row)

/-! ## Rows of the aggregate tables -/

/-- Row of the `initiatives` table (`SqlInitiativeRow` in initiative.ts). -/
structure InitiativeRow where
  id : String
  slug : String
  shortName : String
  fullName : String
  website : Option String
  pdf : String
  image : Option String
  deadline : Option String
  initiatedDate : Option String
  updatedAt : Int
  createdAt : Int
deriving Repr, DecidableEq

/-- Row of the `organisations` table as the model layer reads and writes it
(`SqlOrganisationRow` in organisation.ts): id, name, image, website only —
there is no separate slug column and no timestamp columns in this row type. -/
structure OrganisationRow where
  id : String
  name : String
  image : Option String
  website : Option String
deriving Repr, DecidableEq

/-- Row of the `people` table (`SqlPersonRow` in person.ts). -/
structure PersonRow where
  id : String
  slug : String
  name : String
  owner : String
deriving Repr, DecidableEq

/-- Row of the `signatures` join table (as written by
`Initiative.addSignature`). Its primary key is `(personId, initiativeId)`. -/
structure SignatureRow where
  personId : String
  initiativeId : String
  createdAt : Int
deriving Repr, DecidableEq

/-! ## Slug generation (initiative.ts / organisation.ts / person.ts)

The base slug itself is produced by `makeSlug` from the external package
`@lusc/util/slug` (`appendRandomHex: false`); operations below receive that
base slug as an explicit parameter. -/

/-- Candidate slug for loop counter `k`:
`counter === 0 ? baseSlug : baseSlug + "-" + counter`. -/
def candidateSlug (baseSlug : String) (k : Nat) : String :=
  if k = 0 then baseSlug else baseSlug ++ "-" ++ toString k

/-- The query `SELECT id from initiatives where slug = :slug`. -/
def Initiative.slugQuery (initiatives : List InitiativeRow) (slug : String) :
    Option String :=
  (initiatives.find? (fun r => r.slug == slug)).map (fun r => r.id)

/-- The loop exit condition in `Initiative.getInitiativeSlug`:
`!initiative || initiative.id === currentId`. -/
def Initiative.slugIsFree (initiatives : List InitiativeRow)
    (currentId : Option String) (slug : String) : Bool :=
  match Initiative.slugQuery initiatives slug with
  | none => true
  | some id => currentId == some id

/-- Fuel-indexed version of the unbounded `for (let counter = 0; ; ++counter)`
loop in `Initiative.getInitiativeSlug`. Every failing candidate is blocked by
a distinct row of the table, so `initiatives.length + 1` iterations always
reach a free candidate; the fuel-exhausted branch is unreachable with that
fuel. -/
def Initiative.getInitiativeSlugLoop (initiatives : List InitiativeRow)
    (currentId : Option String) (baseSlug : String) :
    Nat → Nat → String
  | 0, counter => candidateSlug baseSlug counter
  | fuel + 1, counter =>
    let slug := candidateSlug baseSlug counter
    if Initiative.slugIsFree initiatives currentId slug then
      slug
    else
      Initiative.getInitiativeSlugLoop initiatives currentId baseSlug fuel (counter + 1)

/-- The code `Initiative.getInitiativeSlug(name, currentId?)` with
`baseSlug = makeSlug(name)`. -/
def Initiative.getInitiativeSlug (initiatives : List InitiativeRow)
    (baseSlug : String) (currentId : Option String) : String :=
  Initiative.getInitiativeSlugLoop initiatives currentId baseSlug
    (initiatives.length + 1) 0

/-- The JS `value ||= undefined` coercion applied to `website` and `deadline`
in `Initiative.create` (an empty string becomes absent). -/
def orUndefined (s : Option String) : Option String :=
  match s with
  | some str => if str = "" then none else some str
  | none => none

/-- The code `Initiative.create(shortName, fullName, website, pdf, image,
deadline, initiatedDate)`: id is `'i-' + randomBytes(20)` (`rand` injected),
slug is collision-resolved from the short name's base slug, both timestamps
are `now`. -/
def Initiative.create (initiatives : List InitiativeRow) (rand : String)
    (shortNameBaseSlug shortName fullName : String) (website : Option String)
    (pdf : String) (image : Option String) (deadline initiatedDate : Option String)
    (now : Int) : List InitiativeRow × InitiativeRow :=
  let website := orUndefined website
  let deadline := orUndefined deadline
  let id := "i-" ++ rand
  let slug := Initiative.getInitiativeSlug initiatives shortNameBaseSlug none
  let row : InitiativeRow :=
    { id := id, slug := slug, shortName := shortName, fullName := fullName,
      website := website, pdf := pdf, image := image, deadline := deadline,
      initiatedDate := initiatedDate, updatedAt := now, createdAt := now }
  (row :: initiatives, row)

/-- The code `Initiative.updateShortName(newShortName)`: no-op when the short
name is unchanged; otherwise regenerates the slug with the initiative's own id
as `currentId` (excluding its own row from the collision check), persists and
bumps `updatedAt`. The `Bool` records whether an SQL write was issued. -/
def Initiative.updateShortName (initiatives : List InitiativeRow)
    (self : InitiativeRow) (newShortName newBaseSlug : String) (now : Int) :
    List InitiativeRow × InitiativeRow × Bool :=
  if newShortName = self.shortName then
    (initiatives, self, false)
  else
    let newSlug := Initiative.getInitiativeSlug initiatives newBaseSlug (some self.id)
    let self' := { self with shortName := newShortName, slug := newSlug, updatedAt := now }
    (initiatives.map (fun r => if r.id = self.id then
        { r with shortName := newShortName, slug := newSlug, updatedAt := now }
      else r),
     self', true)

/-- The code `Initiative.updateFullName(newFullName)`: no-op when unchanged,
else persists the new full name and bumps `updatedAt`. -/
def Initiative.updateFullName (initiatives : List InitiativeRow)
    (self : InitiativeRow) (newFullName : String) (now : Int) :
    List InitiativeRow × InitiativeRow × Bool :=
  if newFullName = self.fullName then
    (initiatives, self, false)
  else
    let self' := { self with fullName := newFullName, updatedAt := now }
    (initiatives.map (fun r => if r.id = self.id then
        { r with fullName := newFullName, updatedAt := now }
      else r),
     self', true)

/-- Best-effort file deletion: `fs.rm` failures (oracle `fsFail`, or the file
being absent) are thrown and swallowed by every caller, leaving the file list
unchanged. -/
def rmFile (files : List String) (fsFail : String → Bool) (name : String) :
    List String :=
  if fsFail name then files else files.filter (fun f => f ≠ name)

/-- The code `Initiative.updatePdf(newPdf)`: it has no unchanged-value guard —
it unconditionally UPDATEs the row (bumping `updatedAt`), then best-effort
deletes the old PDF file. -/
def Initiative.updatePdf (initiatives : List InitiativeRow) (files : List String)
    (fsFail : String → Bool) (self : InitiativeRow) (newPdf : String) (now : Int) :
    (List InitiativeRow × List String) × InitiativeRow × Bool :=
  let initiatives' := initiatives.map (fun r => if r.id = self.id then
      { r with pdf := newPdf, updatedAt := now }
    else r)
  let files' := rmFile files fsFail self.pdf
  ((initiatives', files'), { self with pdf := newPdf, updatedAt := now }, true)

/-- The code `Initiative.rm()`: DELETEs the row, then best-effort deletes the
image file (if any) and the PDF file; both deletions are inside try/catch and
can never fail the operation. -/
def Initiative.rm (initiatives : List InitiativeRow) (files : List String)
    (fsFail : String → Bool) (self : InitiativeRow) :
    List InitiativeRow × List String :=
  let initiatives' := initiatives.filter (fun r => r.id ≠ self.id)
  let files' :=
    match self.image with
    | some image => rmFile files fsFail image
    | none => files
  let files'' := rmFile files' fsFail self.pdf
  (initiatives', files'')

/-- The query `SELECT id from organisations where id = :slug` in
`Organisation.getOrganisationSlug` (the organisation id doubles as its slug). -/
def Organisation.idQuery (organisations : List OrganisationRow) (slug : String) :
    Option String :=
  (organisations.find? (fun r => r.id == slug)).map (fun r => r.id)

/-- Fuel-indexed version of the unbounded counter loop in
`Organisation.getOrganisationSlug`; no self-exclusion parameter exists. -/
def Organisation.getOrganisationSlugLoop (organisations : List OrganisationRow)
    (baseSlug : String) : Nat → Nat → String
  | 0, counter => candidateSlug baseSlug counter
  | fuel + 1, counter =>
    let slug := candidateSlug baseSlug counter
    match Organisation.idQuery organisations slug with
    | none => slug
    | some _ =>
      Organisation.getOrganisationSlugLoop organisations baseSlug fuel (counter + 1)

/-- The code `Organisation.getOrganisationSlug(name)` with
`baseSlug = makeSlug(name)`. -/
def Organisation.getOrganisationSlug (organisations : List OrganisationRow)
    (baseSlug : String) : String :=
  Organisation.getOrganisationSlugLoop organisations baseSlug
    (organisations.length + 1) 0

/-- The code `Organisation.create(name, image, website)`: the row's id IS the
collision-resolved slug (`id: slug`); no random identifier is generated. -/
def Organisation.create (organisations : List OrganisationRow)
    (nameBaseSlug name : String) (image website : Option String) :
    List OrganisationRow × OrganisationRow :=
  let slug := Organisation.getOrganisationSlug organisations nameBaseSlug
  let website := orUndefined website
  let row : OrganisationRow :=
    { id := slug, name := name, image := image, website := website }
  (row :: organisations, row)

/-- The code `Organisation.updateName(newName)`: no-op when unchanged, else
UPDATEs only the `name` column (the organisation row carries no `updatedAt`,
and the slug/id is left unchanged). The `Bool` records whether an SQL write
was issued. -/
def Organisation.updateName (organisations : List OrganisationRow)
    (self : OrganisationRow) (newName : String) :
    List OrganisationRow × OrganisationRow × Bool :=
  if newName = self.name then
    (organisations, self, false)
  else
    (organisations.map (fun r => if r.id = self.id then { r with name := newName } else r),
     { self with name := newName }, true)

/-- The code `Person.fromSlug(slug, owner)`:
`WHERE slug = :slug AND owner = :owner` (the subsequent `_fromRow` owner
re-resolution via Login is hydration detail with no effect on existence). -/
def Person.fromSlug (people : List PersonRow) (slug ownerId : String) :
    Option PersonRow :=
  people.find? (fun r => r.slug == slug && r.owner == ownerId)

/-- The code `Person.create(name, owner)`: the slug is `makeSlug(name)` with
NO numeric-suffix collision loop; an existing person with the same slug and
owner is an error. The id is `'p-' + randomBytes(20)` (`rand` injected). The
try/catch around the INSERT (for the `UNIQUE (slug, owner)` constraint racing)
cannot fire in this sequential model, since the same condition was just
checked. -/
def Person.create (people : List PersonRow) (rand : String)
    (nameBaseSlug name ownerId : String) :
    Except String (List PersonRow × PersonRow) :=
  let slug := nameBaseSlug
  match Person.fromSlug people slug ownerId with
  | some _ => .error "Person with the same name exists already."
  | none =>
    let id := "p-" ++ rand
    let row : PersonRow := { id := id, slug := slug, name := name, owner := ownerId }
    .ok (row :: people, row)

/-- The code `Person.updateName(newName)`: no-op when the name is unchanged;
otherwise looks up `Person.fromSlug(makeSlug(newName), owner)` WITHOUT
excluding the person's own row, and errors when any row (the person's own one
included) carries that slug; else persists the new name and slug. -/
def Person.updateName (people : List PersonRow) (self : PersonRow)
    (newName newBaseSlug : String) :
    Except String (List PersonRow × PersonRow) :=
  if newName = self.name then
    .ok (people, self)
  else
    match Person.fromSlug people newBaseSlug self.owner with
    | some _ => .error "Person with the same name exists already."
    | none =>
      let self' := { self with name := newName, slug := newBaseSlug }
      .ok (people.map (fun r => if r.id = self.id then
          { r with name := newName, slug := newBaseSlug }
        else r),
       self')

/-! ## Relation management (Initiative.addSignature / removeSignature) -/

/-- The slice of an in-memory `Initiative` used by the relation methods: its
id, its signature cache (cached person ids; the `sortPeople` ordering is
locale-dependent and not modelled — membership is what the claims concern),
and the `_resolvedSignaturesOrganisations` flag. -/
structure InitiativeRelState where
  id : String
  signatures : List String
  resolvedSignaturesOrganisations : Bool
deriving Repr, DecidableEq

/-- The code `Initiative.addSignature(person)`: throws unless the caches were
resolved; then INSERTs the join row inside try/catch — a failure (the
`PRIMARY KEY (personId, initiativeId)` violation on a duplicate, or ANY other
store error, modelled by the oracle `insertFails`) is logged and swallowed,
leaving table and cache unchanged. -/
def Initiative.addSignature (signatures : List SignatureRow)
    (self : InitiativeRelState) (personId : String) (now : Int)
    (insertFails : Bool) :
    Except String (List SignatureRow × InitiativeRelState) :=
  if !self.resolvedSignaturesOrganisations then
    .error "Must initialise signatures and organisations."
  else if insertFails
      || signatures.any (fun r => r.initiativeId == self.id && r.personId == personId) then
    .ok (signatures, self)
  else
    .ok ({ personId := personId, initiativeId := self.id, createdAt := now } :: signatures,
      { self with signatures := personId :: self.signatures })

/-- The code `Initiative.removeSignature(person)`: throws unless the caches
were resolved; then DELETEs the join row (absent rows delete zero rows) and
filters the cache. -/
def Initiative.removeSignature (signatures : List SignatureRow)
    (self : InitiativeRelState) (personId : String) :
    Except String (List SignatureRow × InitiativeRelState) :=
  if !self.resolvedSignaturesOrganisations then
    .error "Must initialise signatures and organisations."
  else
    .ok (signatures.filter (fun r => !(r.initiativeId == self.id && r.personId == personId)),
      { self with signatures := self.signatures.filter (fun p => p ≠ personId) })

/-! ## Asset store (src/api/src/models/asset.ts) -/

/-- UTF-8 bytes of the string `<svg`, searched for by `buffer.includes`. -/
def svgMarker : List Nat := [0x3c, 0x73, 0x76, 0x67]

/-- A sniffed file type (extension and MIME). -/
structure FileType where
  ext : String
  mime : String
deriving Repr, DecidableEq

/-- Modelled from the spec: the magic-byte content sniffing of the external
`file-type` package (a dependency, not repository code), restricted to the
formats appearing in the asset allow-lists — `%PDF` for PDF, the JPEG and PNG
magic numbers, `RIFF....WEBP` for WebP; any other content is unrecognised. -/
def fileTypeFromBufferExternal (buffer : List Nat) : Option FileType :=
  if [0x25, 0x50, 0x44, 0x46].isPrefixOf buffer then
    some { ext := "pdf", mime := "application/pdf" }
  else if [0xff, 0xd8, 0xff].isPrefixOf buffer then
    some { ext := "jpg", mime := "image/jpeg" }
  else if [0x89, 0x50, 0x4e, 0x47, 0x0d, 0x0a, 0x1a, 0x0a].isPrefixOf buffer then
    some { ext := "png", mime := "image/png" }
  else if [0x52, 0x49, 0x46, 0x46].isPrefixOf buffer
      && [0x57, 0x45, 0x42, 0x50].isPrefixOf (buffer.drop 8) then
    some { ext := "webp", mime := "image/webp" }
  else
    none

/-- Containment of a contiguous byte sequence (`Buffer.includes`): the pattern
is a prefix of some suffix of the buffer. -/
def bufferIncludes (buffer pattern : List Nat) : Bool :=
  buffer.tails.any (fun t => pattern.isPrefixOf t)

/-- The wrapper `fileTypeFromBuffer` in asset.ts: a buffer containing the byte
sequence `<svg` anywhere is treated as `image/svg+xml` (a deliberately basic
text heuristic) before magic-byte sniffing. -/
def fileTypeFromBuffer (buffer : List Nat) : Option FileType :=
  if bufferIncludes buffer svgMarker then
    some { ext := "svg", mime := "image/svg+xml" }
  else
    fileTypeFromBufferExternal buffer

/-- The allow-list `Asset._validMimeTypes` of the base class (empty). -/
def Asset.validMimeTypes : List String := []

/-- The allow-list `PdfAsset._validMimeTypes`. -/
def PdfAsset.validMimeTypes : List String := ["application/pdf"]

/-- The allow-list `ImageAsset._validMimeTypes`. -/
def ImageAsset.validMimeTypes : List String :=
  ["image/jpeg", "image/png", "image/webp", "image/svg+xml"]

/-- The code `Asset._validateAndGetExtension(asset)`: rejects oversized
buffers first, then rejects unless the sniffed MIME is in the subclass's
allow-list; returns the sniffed extension. (The caller never passes a
filename: only content is consulted.) -/
def Asset.validateAndGetExtension (validMimeTypes : List String)
    (fileSizeLimit : Nat) (asset : List Nat) : Except String String :=
  if asset.length > fileSizeLimit then
    .error "Asset file size is too large."
  else
    match fileTypeFromBuffer asset with
    | none => .error "Invalid asset type. Got undefined"
    | some fileType =>
      if validMimeTypes.contains fileType.mime then
        .ok fileType.ext
      else
        .error ("Invalid asset type. Got " ++ fileType.mime)

/-- The code `Asset.generateName(extension)`:
`randomBytes(40).toString('base64url') + '.' + extension` with the random
token injected. -/
def Asset.generateName (rand extension : String) : String :=
  rand ++ "." ++ extension

/-- The code `Asset.createFromFile(buffer)`: validates and sniffs, applies the
subclass transform (`Asset.optimise` is the identity; `ImageAsset`'s SVG
minification is the external `svgo` and byte-level output is not modelled),
writes the file under a fresh random name and returns it. -/
def Asset.createFromFile (validMimeTypes : List String) (fileSizeLimit : Nat)
    (files : List String) (rand : String) (buffer : List Nat) :
    Except String (List String × String) :=
  match Asset.validateAndGetExtension validMimeTypes fileSizeLimit buffer with
  | .error e => .error e
  | .ok extension =>
    let name := Asset.generateName rand extension
    .ok (name :: files, name)

/-- The call `path.basename(name)` in `Asset.fromName`: the component after
the final `'/'` separator, computed as the longest separator-free suffix
(asset names contain no separator; names with trailing separators are outside
the modelled claims). -/
def pathBasename (name : String) : String :=
  String.mk ((name.data.reverse.takeWhile (fun c => c ≠ '/')).reverse)

/-- The code `Asset.fromName(name)`: basename-sanitizes, then `stat`s the
file; returns the asset (its name) only when the file exists. -/
def Asset.fromName (files : List String) (name : String) : Option String :=
  let name := pathBasename name
  if files.contains name then some name else none

/-! ## Remote fetch and SSRF guard (asset.ts) -/

/-- WHATWG-parsed URL parts consumed by the validation code (`_validateUrl`
re-parses its string input; unparseable input errors before any logic modelled
here, and the claims concern parseable URLs). -/
structure UrlParts where
  protocol : String
  hostname : String
deriving Repr, DecidableEq

/-- The external collaborators of `Asset._isInternal`: the `ip` package
(`isV6Format`, `isPrivate` — `none` models a thrown exception, which the code
swallows) and `dns.lookup` (`none` models a failed lookup). -/
structure NetEnv where
  isV6Format : String → Bool
  isPrivate : String → Option Bool
  lookup : String → Option String

/-- The code `Asset._isInternal(url)`: hostnames with IPv6 bracket syntax (or
recognised as IPv6) are internal; then the hostname itself, then the address
it resolves to, are checked against private ranges, with thrown errors and
failed lookups falling through to `false`. -/
def Asset.isInternal (env : NetEnv) (url : UrlParts) : Bool :=
  let hostname := url.hostname
  if hostname.data.contains '[' || hostname.data.contains ']' || env.isV6Format hostname then
    true
  else if env.isPrivate hostname == some true then
    true
  else
    match env.lookup hostname with
    | some address => env.isPrivate address == some true
    | none => false

/-- The code `Asset._validateUrl(url)`: rejects protocols other than
`http:`/`https:`, then rejects internal hosts (error messages carry the
offending URL in the source; the interpolation is dropped here). -/
def Asset.validateUrl (env : NetEnv) (url : UrlParts) : Except String Unit :=
  if url.protocol ≠ "https:" ∧ url.protocol ≠ "http:" then
    .error ("Invalid protocol " ++ url.protocol ++ ".")
  else if Asset.isInternal env url then
    .error "Invalid url."
  else
    .ok ()

/-- A completed fetch: `finalUrl` is `response.url`, the final URL after any
redirects were followed; `body` the response bytes. The 5-second abort timer
is real-time behaviour outside the model. -/
structure FetchResponse where
  finalUrl : UrlParts
  body : List Nat

/-- The code `Asset._safeFetch(url)`: validates the request URL, fetches,
re-validates `response.url` (the post-redirect URL) with the same validation,
then enforces the size limit. -/
def Asset.safeFetch (env : NetEnv) (doFetch : UrlParts → FetchResponse)
    (fileSizeLimit : Nat) (url : UrlParts) : Except String (List Nat) :=
  match Asset.validateUrl env url with
  | .error e => .error e
  | .ok _ =>
    let response := doFetch url
    match Asset.validateUrl env response.finalUrl with
    | .error e => .error e
    | .ok _ =>
      if response.body.length > fileSizeLimit then
        .error "File is too large"
      else
        .ok response.body

/-- The code `Asset.createFromUrl(url)`: `_safeFetch` then `createFromFile`. -/
def Asset.createFromUrl (env : NetEnv) (doFetch : UrlParts → FetchResponse)
    (validMimeTypes : List String) (fileSizeLimit : Nat) (files : List String)
    (rand : String) (url : UrlParts) : Except String (List String × String) :=
  match Asset.safeFetch env doFetch fileSizeLimit url with
  | .error e => .error e
  | .ok buffer => Asset.createFromFile validMimeTypes fileSizeLimit files rand buffer

/-! ## Initiative hydration (initiative.ts `_fromRow` / `fromId` / `fromSlug` / `all`) -/

/-- An in-memory `Initiative` as `_fromRow` constructs it (`pdf` and `image`
hold the hydrated asset names). -/
structure HydratedInitiative where
  id : String
  slug : String
  shortName : String
  fullName : String
  website : Option String
  pdf : String
  image : Option String
  deadline : Option String
  initiatedDate : Option String
  updatedAt : Int
  createdAt : Int
deriving Repr, DecidableEq

/-- The code `Initiative._fromRow(row)` on a present row: throws
`'PDF ... does not exist.'` when the PDF asset is missing on disk; a missing
optional image hydrates as `undefined` without error. -/
def Initiative.fromRow (files : List String) (row : InitiativeRow) :
    Except String HydratedInitiative :=
  match Asset.fromName files row.pdf with
  | none => .error ("PDF " ++ row.pdf ++ " does not exist.")
  | some pdf =>
    let image :=
      match row.image with
      | some imageName => Asset.fromName files imageName
      | none => none
    .ok { id := row.id, slug := row.slug, shortName := row.shortName,
          fullName := row.fullName, website := row.website, pdf := pdf,
          image := image, deadline := row.deadline,
          initiatedDate := row.initiatedDate, updatedAt := row.updatedAt,
          createdAt := row.createdAt }

/-- The code `Initiative.fromId(id)`: row lookup by id, then `_fromRow`
(an absent row is `undefined`, not an error). -/
def Initiative.fromId (initiatives : List InitiativeRow) (files : List String)
    (id : String) : Except String (Option HydratedInitiative) :=
  match initiatives.find? (fun r => r.id == id) with
  | none => .ok none
  | some row => (Initiative.fromRow files row).map some

/-- The code `Initiative.fromSlug(slug)`: row lookup by slug, then
`_fromRow`. -/
def Initiative.fromSlug (initiatives : List InitiativeRow) (files : List String)
    (slug : String) : Except String (Option HydratedInitiative) :=
  match initiatives.find? (fun r => r.slug == slug) with
  | none => .ok none
  | some row => (Initiative.fromRow files row).map some

/-- The code `Initiative.all()`: hydrates every row (the final
`sortInitiatives` permutes a successful result through the external
locale-aware sort utility and cannot affect whether an error is thrown; the
model leaves table order). -/
def Initiative.all (initiatives : List InitiativeRow) (files : List String) :
    Except String (List HydratedInitiative) :=
  initiatives.mapM (Initiative.fromRow files)

/-! ## Theorems: migration runner (C2) -/

/-- Helper: filtering keeps the last element when it satisfies the predicate. -/
theorem getLast?_filter_eq {α : Type} (p : α → Bool) :
    ∀ (l : List α) (x : α), l.getLast? = some x → p x = true →
      (l.filter p).getLast? = some x := by
  intro l
  induction l with
  | nil => intro x hx _; cases hx
  | cons a t ih =>
    intro x hx hpx
    cases t with
    | nil =>
      have hax : a = x := by simpa using hx
      subst hax
      simp [List.filter_cons, hpx]
    | cons b u =>
      have hx' : (b :: u).getLast? = some x := by
        rwa [List.getLast?_cons_cons] at hx
      have htail := ih x hx' hpx
      have hne : (b :: u).filter p ≠ [] := by
        intro h
        rw [h] at htail
        cases htail
      rw [List.filter_cons]
      by_cases hpa : p a = true
      · cases hf : (b :: u).filter p with
        | nil => exact absurd hf hne
        | cons c cs =>
          rw [hf] at htail
          simp only [hpa, if_true, hf]
          rw [List.getLast?_cons_cons]
          exact htail
      · simp only [eq_false_of_ne_true hpa, if_false]
        exact htail

/-- Helper: in a strictly id-ascending list, every id is at most the last id. -/
theorem sorted_le_getLast? :
    ∀ (l : List Migration) (x : Migration), l.getLast? = some x →
      l.Pairwise (fun a b => a.id < b.id) → ∀ g ∈ l, g.id ≤ x.id := by
  intro l
  induction l with
  | nil => intro x hx _ g hg; cases hx
  | cons a t ih =>
    intro x hx hp g hg
    cases t with
    | nil =>
      have hax : a = x := by simpa using hx
      have hga : g = a := by simpa using hg
      subst hax hga
      exact le_refl _
    | cons b u =>
      have hx' : (b :: u).getLast? = some x := by
        rwa [List.getLast?_cons_cons] at hx
      rcases List.mem_cons.mp hg with rfl | hgt
      · have hxmem : x ∈ b :: u := by
          rcases List.mem_getLast?_eq_getLast (l := b :: u) (x := x) hx' with ⟨h, rfl⟩
          exact List.getLast_mem h
        exact le_of_lt (List.rel_of_pairwise_cons hp hxmem)
      · exact ih x hx' hp.of_cons g hgt

/-- Helper: the runner loop, on a strictly id-ascending migration list, yields
exactly the per-migration event blocks of the migrations above the marker, and
leaves the marker file at the last processed id (or untouched if none). -/
theorem migrateLoop_spec (migs : List Migration) :
    ∀ (marker : Int) (file : Option Int),
      migs.Pairwise (fun a b => a.id < b.id) →
      migrateLoop migs marker file =
        ((match (migs.filter (fun g => marker < g.id)).getLast? with
          | none => file
          | some g => some g.id),
         (migs.filter (fun g => marker < g.id)).flatMap migrationEvents) := by
  induction migs with
  | nil => intro marker file _; simp [migrateLoop]
  | cons m rest ih =>
    intro marker file hp
    have hrest : rest.Pairwise (fun a b => a.id < b.id) := hp.of_cons
    have hm : ∀ g ∈ rest, m.id < g.id := by
      intro g hg
      exact List.rel_of_pairwise_cons hp hg
    by_cases hle : m.id ≤ marker
    · have hfilter : (m :: rest).filter (fun g => marker < g.id) =
          rest.filter (fun g => marker < g.id) := by
        simp [List.filter_cons, not_lt.mpr hle]
      rw [hfilter]
      simpa [migrateLoop, hle] using ih marker file hrest
    · push_neg at hle
      have hrestall : rest.filter (fun g => m.id < g.id) = rest :=
        List.filter_eq_self.mpr (fun g hg => decide_eq_true (hm g hg))
      have hrestall' : rest.filter (fun g => marker < g.id) = rest :=
        List.filter_eq_self.mpr (fun g hg => decide_eq_true (lt_trans hle (hm g hg)))
      have hfilter : (m :: rest).filter (fun g => marker < g.id) = m :: rest := by
        simp [List.filter_cons, hle, hrestall']
      have hstep := ih m.id (some m.id) hrest
      rw [hrestall] at hstep
      rw [hfilter]
      simp only [migrateLoop, if_neg (not_le.mpr hle), hstep]
      simp only [Prod.mk.injEq]
      refine ⟨?_, by simp [migrationEvents]⟩
      cases rest with
      | nil => simp
      | cons r rs =>
        rw [List.getLast?_cons_cons]
        cases hx : (r :: rs).getLast? with
        | none => simp [List.getLast?_eq_none_iff] at hx
        | some y => simp [hx]

/-- C2: for every strictly-ascending list of migrations and persisted marker
`m` (marker-file absence meaning `m = -1`), the runner's event trace is exactly
the concatenation, over the migrations with `id > m` in ascending order, of: a
`shouldRun` call, a `run` call only if `shouldRun` returned true, and a marker
persist to that migration's id before the next migration is touched;
consequently `run` is called for id `i` iff some migration with `id = i > m`
has `shouldRun` true (so no migration with `id ≤ m` is ever executed again),
and whenever any migration has `id > m` the final persisted marker is the last
(largest) migration id, regardless of `shouldRun` outcomes. -/
theorem migrate_monotonic (migs : List Migration) (file : Option Int)
    (hsorted : migs.Pairwise (fun a b => a.id < b.id)) :
    (migrate migs file).2 =
        (migs.filter (fun g => readMigrationState file < g.id)).flatMap migrationEvents
    ∧ (∀ i, MigEvent.ranCalled i ∈ (migrate migs file).2 ↔
        ∃ g ∈ migs, g.id = i ∧ readMigrationState file < g.id ∧ g.shouldRunResult = true)
    ∧ ((∃ g ∈ migs, readMigrationState file < g.id) →
        (migrate migs file).1 = migs.getLast?.map (fun g => g.id)) := by
  by_cases hnil : migs = []
  · subst hnil
    refine ⟨by simp [migrate], ?_, ?_⟩
    · intro i
      simp [migrate]
    · rintro ⟨g, hg, -⟩
      exact absurd hg (List.not_mem_nil g)
  · have hne : migrate migs file = migrateLoop migs (readMigrationState file) file := by
      simp [migrate, hnil]
    have hspec := migrateLoop_spec migs (readMigrationState file) file hsorted
    rw [hne, hspec]
    refine ⟨rfl, ?_, ?_⟩
    · intro i
      constructor
      · intro hmem
        rcases List.mem_flatMap.mp hmem with ⟨g, hg, hev⟩
        have hgf := List.mem_filter.mp hg
        by_cases hsr : g.shouldRunResult = true
        · simp [migrationEvents, hsr] at hev
          exact ⟨g, hgf.1, by omega, of_decide_eq_true hgf.2, hsr⟩
        · simp [migrationEvents, hsr] at hev
      · rintro ⟨g, hg, hid, hlt, hsr⟩
        refine List.mem_flatMap.mpr ⟨g, List.mem_filter.mpr ⟨hg, decide_eq_true hlt⟩, ?_⟩
        subst hid
        simp [migrationEvents, hsr]
    · rintro ⟨g, hg, hlt⟩
      cases hgl : migs.getLast? with
      | none =>
        rw [List.getLast?_eq_none_iff] at hgl
        exact absurd hgl hnil
      | some x =>
        have hgx : g.id ≤ x.id := sorted_le_getLast? migs x hgl hsorted g hg
        have hpx : decide (readMigrationState file < x.id) = true :=
          decide_eq_true (lt_of_lt_of_le hlt hgx)
        have hfl := getLast?_filter_eq (fun g => decide (readMigrationState file < g.id))
          migs x hgl hpx
        rw [hfl]
        rfl

/-- Witness for C2: migrations with ids `[1, 2, 3]`, persisted marker `1`,
migration 3's `shouldRun` returning false: only 2 and 3 are considered, `run`
executes only for 2, and the marker ends at 3. -/
theorem migrate_monotonic_witness :
    (migrate [⟨1, true⟩, ⟨2, true⟩, ⟨3, false⟩] (some 1)).1 = some 3
    ∧ (migrate [⟨1, true⟩, ⟨2, true⟩, ⟨3, false⟩] (some 1)).2 =
        [MigEvent.shouldRunCalled 2, MigEvent.ranCalled 2, MigEvent.statePersisted 2,
         MigEvent.shouldRunCalled 3, MigEvent.statePersisted 3] := by
  have h := migrate_monotonic [⟨1, true⟩, ⟨2, true⟩, ⟨3, false⟩] (some 1) (by decide)
  refine ⟨?_, ?_⟩
  · rw [h.2.2 ⟨⟨2, true⟩, by simp, by decide⟩]
    rfl
  · rw [h.1]
    rfl

/-! ## Theorems: session lifecycle (C8) -/

/-- C8: for a session created at time `c` (so `expires = c + TTL`),
`shouldRenew` at time `now` is true iff the current time is strictly before
the expiry instant and strictly more than 50% of the 7-day TTL has elapsed
since creation (`now - c > TTL/2`); in particular a fresh session reports
false. `renew` returns `undefined` exactly when the session is expired
(`expires < now`), and otherwise returns a fresh session for the same login
created at `now`, leaving every existing session row — the old one included —
in place. -/
theorem session_lifecycle (sessions st1 : List SessionRow) (s : SessionEntity)
    (userId rand rand2 : String) (c : Int)
    (h : Session.create sessions userId rand c = (st1, s)) :
    (∀ now : Int, Session.shouldRenew s now = true ↔
        (now < s.expires ∧ SESSION_HALF_DURATION_MS < now - c))
    ∧ Session.shouldRenew s c = false
    ∧ (∀ now : Int, (Session.renew st1 s rand2 now = none ↔
        Session.isExpired s now = true))
    ∧ (∀ now : Int, Session.isExpired s now = false →
        (Session.renew st1 s rand2 now).isSome = true
        ∧ ∀ st2 s2, Session.renew st1 s rand2 now = some (st2, s2) →
            s2.userId = userId ∧ s2.createdAt = now
            ∧ s2.expires = now + SESSION_DURATION_MS
            ∧ ∀ r ∈ st1, r ∈ st2) := by
  simp only [Session.create] at h
  injection h with h1 h2
  subst h1
  subst h2
  refine ⟨?_, ?_, ?_, ?_⟩
  · intro now
    simp only [Session.shouldRenew, Session.isExpired, SESSION_HALF_DURATION_MS,
      SESSION_DURATION_MS]
    by_cases hexp : c + 7 * 24 * 60 * 60 * 1000 < now
    · simp [hexp]
      omega
    · simp [hexp]
      omega
  · simp [Session.shouldRenew, Session.isExpired, SESSION_HALF_DURATION_MS,
      SESSION_DURATION_MS]
  · intro now
    simp only [Session.renew]
    by_cases hexp : Session.isExpired
        { id := "s-" ++ rand, userId := userId,
          expires := c + SESSION_DURATION_MS, createdAt := c } now = true
    · simp [hexp]
    · simp [hexp]
  · intro now hexp
    constructor
    · simp [Session.renew, hexp]
    · intro st2 s2 heq
      simp only [Session.renew, hexp, Bool.false_eq_true, if_false, Session.create,
        Option.some.injEq] at heq
      injection heq with heq1 heq2
      subst heq1
      subst heq2
      exact ⟨rfl, rfl, rfl, fun r hr => List.mem_cons_of_mem _ hr⟩

/-- Witness for C8, at concrete times: a session created at time 0 should not
renew at creation, should renew at half-TTL-plus-one, and renewing just after
half-TTL succeeds and keeps the old row. -/
theorem session_lifecycle_witness :
    Session.shouldRenew (Session.create [] "u" "r" 0).2 0 = false
    ∧ Session.shouldRenew (Session.create [] "u" "r" 0).2 302400001 = true
    ∧ Session.renew (Session.create [] "u" "r" 0).1 (Session.create [] "u" "r" 0).2
        "q" 604800001 = none := by
  have h := session_lifecycle [] (Session.create [] "u" "r" 0).1
    (Session.create [] "u" "r" 0).2 "u" "r" "q" 0 rfl
  refine ⟨h.2.1, ?_, ?_⟩
  · exact (h.1 302400001).mpr ⟨by decide, by decide⟩
  · exact (h.2.2.1 604800001).mpr (by decide)

/-! ## Theorems: SSRF guard (C4) -/

/-- Helper: a successful `_validateUrl` means the URL was not internal. -/
theorem validateUrl_ok_not_internal (env : NetEnv) (u : UrlParts) (x : Unit)
    (h : Asset.validateUrl env u = .ok x) : Asset.isInternal env u = false := by
  simp only [Asset.validateUrl] at h
  by_cases hp : u.protocol ≠ "https:" ∧ u.protocol ≠ "http:"
  · rw [if_pos hp] at h
    cases h
  · rw [if_neg hp] at h
    by_cases hi : Asset.isInternal env u = true
    · rw [if_pos hi] at h
      cases h
    · simpa using hi

/-- C4: `createFromUrl` fails with the invalid-protocol error on non-http(s)
URLs and with the invalid-url error on internal hosts; a hostname with IPv6
bracket syntax, a hostname the `ip` library reports private, and a hostname
resolving to a private address are each internal; and because the same
validation is re-applied to `response.url`, any successful fetch implies that
both the request URL and the post-redirect final URL were not internal. -/
theorem asset_createFromUrl_ssrf (env : NetEnv) (doFetch : UrlParts → FetchResponse)
    (validMimeTypes : List String) (fileSizeLimit : Nat) (files : List String)
    (rand : String) (url : UrlParts) :
    ((url.protocol ≠ "https:" ∧ url.protocol ≠ "http:") →
      Asset.createFromUrl env doFetch validMimeTypes fileSizeLimit files rand url =
        .error ("Invalid protocol " ++ url.protocol ++ "."))
    ∧ (Asset.isInternal env url = true →
        (url.protocol = "https:" ∨ url.protocol = "http:") →
        Asset.createFromUrl env doFetch validMimeTypes fileSizeLimit files rand url =
          .error "Invalid url.")
    ∧ ((url.hostname.data.contains '[' || url.hostname.data.contains ']') = true →
        Asset.isInternal env url = true)
    ∧ (env.isPrivate url.hostname = some true → Asset.isInternal env url = true)
    ∧ (∀ address, env.lookup url.hostname = some address →
        env.isPrivate address = some true → Asset.isInternal env url = true)
    ∧ (∀ result,
        Asset.createFromUrl env doFetch validMimeTypes fileSizeLimit files rand url =
          .ok result →
        Asset.isInternal env url = false
        ∧ Asset.isInternal env (doFetch url).finalUrl = false) := by
  refine ⟨?_, ?_, ?_, ?_, ?_, ?_⟩
  · intro hp
    have h1 : Asset.validateUrl env url =
        .error ("Invalid protocol " ++ url.protocol ++ ".") := by
      simp only [Asset.validateUrl]
      rw [if_pos ⟨hp.1, hp.2⟩]
    simp [Asset.createFromUrl, Asset.safeFetch, h1]
  · intro hint hp
    have h1 : Asset.validateUrl env url = .error "Invalid url." := by
      simp only [Asset.validateUrl]
      rw [if_neg (by rcases hp with h | h <;> simp [h]), if_pos hint]
    simp [Asset.createFromUrl, Asset.safeFetch, h1]
  · intro hb
    simp only [Asset.isInternal]
    rcases Bool.or_eq_true _ _ |>.mp hb with h | h
    · have h2 : '[' ∈ url.hostname.data := by simpa using h
      simp [h2]
    · have h2 : ']' ∈ url.hostname.data := by simpa using h
      simp [h2]
  · intro hpriv
    simp only [Asset.isInternal]
    by_cases hb : (url.hostname.data.contains '[' || url.hostname.data.contains ']'
        || env.isV6Format url.hostname) = true
    · rw [if_pos hb]
    · rw [if_neg hb, if_pos (by simp [hpriv])]
  · intro address hlook hpriv
    simp only [Asset.isInternal]
    by_cases hb : (url.hostname.data.contains '[' || url.hostname.data.contains ']'
        || env.isV6Format url.hostname) = true
    · rw [if_pos hb]
    · rw [if_neg hb]
      by_cases hh : (env.isPrivate url.hostname == some true) = true
      · rw [if_pos hh]
      · rw [if_neg hh, hlook]
        simp [hpriv]
  · intro result hok
    simp only [Asset.createFromUrl, Asset.safeFetch] at hok
    cases hv1 : Asset.validateUrl env url with
    | error e => rw [hv1] at hok; cases hok
    | ok x =>
      rw [hv1] at hok
      cases hv2 : Asset.validateUrl env (doFetch url).finalUrl with
      | error e => rw [hv2] at hok; cases hok
      | ok y =>
        exact ⟨validateUrl_ok_not_internal env url x hv1,
          validateUrl_ok_not_internal env (doFetch url).finalUrl y hv2⟩

/-- Witness for C4: with the `ip` library behaviour on loopback
(`isPrivate "127.0.0.1" = true`), both `http://127.0.0.1/x` (private host) and
`http://[::1]/x` (bracket IPv6 literal, for every environment) fail as
invalid URLs. -/
theorem asset_createFromUrl_ssrf_witness :
    Asset.createFromUrl
      { isV6Format := fun _ => false,
        isPrivate := fun h => some (h == "127.0.0.1"),
        lookup := fun _ => none }
      (fun _ => { finalUrl := { protocol := "http:", hostname := "example.com" }, body := [] })
      PdfAsset.validMimeTypes 100 [] "r" { protocol := "http:", hostname := "127.0.0.1" } =
        .error "Invalid url."
    ∧ Asset.createFromUrl
      { isV6Format := fun _ => false,
        isPrivate := fun _ => some false,
        lookup := fun _ => none }
      (fun _ => { finalUrl := { protocol := "http:", hostname := "example.com" }, body := [] })
      PdfAsset.validMimeTypes 100 [] "r" { protocol := "http:", hostname := "[::1]" } =
        .error "Invalid url." := by
  constructor
  · exact (asset_createFromUrl_ssrf
      { isV6Format := fun _ => false, isPrivate := fun h => some (h == "127.0.0.1"),
        lookup := fun _ => none }
      (fun _ => { finalUrl := { protocol := "http:", hostname := "example.com" }, body := [] })
      PdfAsset.validMimeTypes 100 [] "r"
      { protocol := "http:", hostname := "127.0.0.1" }).2.1 (by decide) (Or.inr rfl)
  · exact (asset_createFromUrl_ssrf
      { isV6Format := fun _ => false, isPrivate := fun _ => some false,
        lookup := fun _ => none }
      (fun _ => { finalUrl := { protocol := "http:", hostname := "example.com" }, body := [] })
      PdfAsset.validMimeTypes 100 [] "r"
      { protocol := "http:", hostname := "[::1]" }).2.1 (by decide) (Or.inr rfl)

/-! ## Theorems: asset content-type enforcement (C5) -/

/-- Helper: an oversized buffer fails with the size error. -/
theorem createFromFile_too_large (validMimeTypes files : List String)
    (rand : String) (limit : Nat) (buffer : List Nat)
    (h : buffer.length > limit) :
    Asset.createFromFile validMimeTypes limit files rand buffer =
      .error "Asset file size is too large." := by
  simp only [Asset.createFromFile, Asset.validateAndGetExtension]
  rw [if_pos h]

/-- Helper: unrecognised content fails with the sniff error. -/
theorem createFromFile_unrecognised (validMimeTypes files : List String)
    (rand : String) (limit : Nat) (buffer : List Nat)
    (hs : ¬ buffer.length > limit) (hft : fileTypeFromBuffer buffer = none) :
    Asset.createFromFile validMimeTypes limit files rand buffer =
      .error "Invalid asset type. Got undefined" := by
  simp only [Asset.createFromFile, Asset.validateAndGetExtension, hft]
  rw [if_neg hs]

/-- Helper: a sniffed type outside the allow-list fails with its MIME named. -/
theorem createFromFile_bad_mime (validMimeTypes files : List String)
    (rand : String) (limit : Nat) (buffer : List Nat) (ft : FileType)
    (hs : ¬ buffer.length > limit) (hft : fileTypeFromBuffer buffer = some ft)
    (hm : validMimeTypes.contains ft.mime = false) :
    Asset.createFromFile validMimeTypes limit files rand buffer =
      .error ("Invalid asset type. Got " ++ ft.mime) := by
  simp only [Asset.createFromFile, Asset.validateAndGetExtension, hft]
  rw [if_neg hs, if_neg (fun hcon => by rw [hm] at hcon; exact Bool.noConfusion hcon)]

/-- Helper: a sniffed type in the allow-list succeeds, storing a fresh file. -/
theorem createFromFile_ok (validMimeTypes files : List String)
    (rand : String) (limit : Nat) (buffer : List Nat) (ft : FileType)
    (hs : ¬ buffer.length > limit) (hft : fileTypeFromBuffer buffer = some ft)
    (hm : validMimeTypes.contains ft.mime = true) :
    Asset.createFromFile validMimeTypes limit files rand buffer =
      .ok (Asset.generateName rand ft.ext :: files, Asset.generateName rand ft.ext) := by
  simp only [Asset.createFromFile, Asset.validateAndGetExtension, hft]
  rw [if_neg hs, if_pos hm]

/-- C5: creating an asset from a buffer never consults a filename; it succeeds
iff the buffer is within the size limit AND the content-sniffed MIME (magic
bytes, with the `<svg` text heuristic) is in the subclass's allow-list; an
oversized buffer fails with the size error, unrecognised content fails, and a
sniffed MIME outside the allow-list fails naming the sniffed type. In
particular `PdfAsset` (allow-list `application/pdf` only) rejects every buffer
sniffing as anything else — e.g. a JPEG, whatever its claimed filename — and a
buffer recognised as neither an allowed image format nor SVG text is rejected
by `ImageAsset`. -/
theorem asset_type_enforcement (validMimeTypes files : List String)
    (rand : String) (fileSizeLimit : Nat) (buffer : List Nat) :
    ((Asset.createFromFile validMimeTypes fileSizeLimit files rand buffer).isOk = true ↔
      (buffer.length ≤ fileSizeLimit ∧ ∃ ft, fileTypeFromBuffer buffer = some ft ∧
        validMimeTypes.contains ft.mime = true))
    ∧ (buffer.length > fileSizeLimit →
        Asset.createFromFile validMimeTypes fileSizeLimit files rand buffer =
          .error "Asset file size is too large.")
    ∧ (fileTypeFromBuffer buffer = none → buffer.length ≤ fileSizeLimit →
        Asset.createFromFile validMimeTypes fileSizeLimit files rand buffer =
          .error "Invalid asset type. Got undefined")
    ∧ (∀ ft, fileTypeFromBuffer buffer = some ft →
        validMimeTypes.contains ft.mime = false →
        buffer.length ≤ fileSizeLimit →
        Asset.createFromFile validMimeTypes fileSizeLimit files rand buffer =
          .error ("Invalid asset type. Got " ++ ft.mime)) := by
  refine ⟨?_, ?_, ?_, ?_⟩
  · by_cases hsz : buffer.length > fileSizeLimit
    · rw [createFromFile_too_large validMimeTypes files rand fileSizeLimit buffer hsz]
      exact ⟨fun h => Bool.noConfusion h, fun h => absurd h.1 (by omega)⟩
    · cases hft : fileTypeFromBuffer buffer with
      | none =>
        rw [createFromFile_unrecognised validMimeTypes files rand fileSizeLimit buffer hsz hft]
        refine ⟨fun h => Bool.noConfusion h, ?_⟩
        rintro ⟨-, ft, hft', -⟩
        exact Option.noConfusion hft'
      | some ft =>
        by_cases hm : validMimeTypes.contains ft.mime = true
        · rw [createFromFile_ok validMimeTypes files rand fileSizeLimit buffer ft hsz hft hm]
          exact ⟨fun _ => ⟨by omega, ft, rfl, hm⟩, fun _ => rfl⟩
        · rw [createFromFile_bad_mime validMimeTypes files rand fileSizeLimit buffer ft hsz hft
            (by simpa using hm)]
          refine ⟨fun h => Bool.noConfusion h, ?_⟩
          rintro ⟨-, ft', hft', hm'⟩
          rw [Option.some.injEq] at hft'
          subst hft'
          exact absurd hm' hm
  · intro hsz
    exact createFromFile_too_large validMimeTypes files rand fileSizeLimit buffer hsz
  · intro hft hsz
    exact createFromFile_unrecognised validMimeTypes files rand fileSizeLimit buffer
      (by omega) hft
  · intro ft hft hm hsz
    exact createFromFile_bad_mime validMimeTypes files rand fileSizeLimit buffer ft
      (by omega) hft hm

/-- Witness for C5: a JPEG buffer (magic bytes `ff d8 ff`) is rejected by the
PDF subclass with the sniffed-type error; an `MZ`-headed executable payload is
rejected by the image subclass as unrecognised; an oversized buffer is
rejected by size. -/
theorem asset_type_enforcement_witness :
    Asset.createFromFile PdfAsset.validMimeTypes 100 [] "r"
        [0xff, 0xd8, 0xff, 0xe0, 0x00] =
      .error "Invalid asset type. Got image/jpeg"
    ∧ Asset.createFromFile ImageAsset.validMimeTypes 100 [] "r"
        [0x4d, 0x5a, 0x90, 0x00] =
      .error "Invalid asset type. Got undefined"
    ∧ Asset.createFromFile PdfAsset.validMimeTypes 2 [] "r" [1, 2, 3] =
      .error "Asset file size is too large." := by
  refine ⟨?_, ?_, ?_⟩
  · exact (asset_type_enforcement PdfAsset.validMimeTypes [] "r" 100
      [0xff, 0xd8, 0xff, 0xe0, 0x00]).2.2.2 { ext := "jpg", mime := "image/jpeg" }
      (by decide) (by decide) (by decide)
  · exact (asset_type_enforcement ImageAsset.validMimeTypes [] "r" 100
      [0x4d, 0x5a, 0x90, 0x00]).2.2.1 (by decide) (by decide)
  · exact (asset_type_enforcement PdfAsset.validMimeTypes [] "r" 2 [1, 2, 3]).2.1
      (by decide)

/-! ## Theorems: relation idempotence (C6) -/

/-- C6: on an initiative whose relation caches have been resolved and a person
not yet linked, calling `addSignature` twice in a row throws no error and
leaves exactly one matching join row (the duplicate INSERT hits the
`(personId, initiativeId)` primary key and is swallowed); `removeSignature`
for a never-added person (absent from store and cache) is an error-free
no-op; and `addSignature` swallows every insert failure — for any failure
oracle outcome and any state with resolved caches it returns without
propagating a store error. -/
theorem relation_idempotence (signatures : List SignatureRow)
    (self : InitiativeRelState) (personId : String) (now now2 : Int)
    (hres : self.resolvedSignaturesOrganisations = true)
    (habsent : signatures.any
      (fun r => r.initiativeId == self.id && r.personId == personId) = false) :
    (∃ sigs1 self1, Initiative.addSignature signatures self personId now false =
        .ok (sigs1, self1)
      ∧ ∃ sigs2 self2, Initiative.addSignature sigs1 self1 personId now2 false =
          .ok (sigs2, self2)
        ∧ (sigs2.filter
            (fun r => r.initiativeId == self.id && r.personId == personId)).length = 1)
    ∧ (personId ∉ self.signatures →
        Initiative.removeSignature signatures self personId = .ok (signatures, self))
    ∧ (∀ (sigs' : List SignatureRow) (st : InitiativeRelState) (pid : String)
        (n : Int) (fails : Bool), st.resolvedSignaturesOrganisations = true →
        ∃ result, Initiative.addSignature sigs' st pid n fails = .ok result) := by
  refine ⟨?_, ?_, ?_⟩
  · have h1 : Initiative.addSignature signatures self personId now false =
        .ok ({ personId := personId, initiativeId := self.id, createdAt := now } :: signatures,
          { self with signatures := personId :: self.signatures }) := by
      simp only [Initiative.addSignature, hres]
      simp [habsent]
    refine ⟨_, _, h1, ?_⟩
    have h2 : Initiative.addSignature
        ({ personId := personId, initiativeId := self.id, createdAt := now } :: signatures)
        { self with signatures := personId :: self.signatures } personId now2 false =
        .ok ({ personId := personId, initiativeId := self.id, createdAt := now } :: signatures,
          { self with signatures := personId :: self.signatures }) := by
      simp only [Initiative.addSignature, hres]
      simp
    refine ⟨_, _, h2, ?_⟩
    rw [List.filter_cons_of_pos (by simp)]
    rw [List.filter_eq_nil_iff.mpr ?_]
    · rfl
    · intro r hr
      intro hcon
      have : signatures.any
          (fun r => r.initiativeId == self.id && r.personId == personId) = true :=
        List.any_eq_true.mpr ⟨r, hr, hcon⟩
      rw [habsent] at this
      cases this
  · intro hcache
    obtain ⟨sid, ssig, sres⟩ := self
    replace hres : sres = true := hres
    subst hres
    simp only at habsent hcache
    have hf1 : signatures.filter
        (fun r => !(r.initiativeId == sid && r.personId == personId)) =
          signatures := by
      apply List.filter_eq_self.mpr
      intro r hr
      cases hc : (r.initiativeId == sid && r.personId == personId) with
      | false => simp [hc]
      | true =>
        have hany : signatures.any
            (fun r => r.initiativeId == sid && r.personId == personId) = true :=
          List.any_eq_true.mpr ⟨r, hr, hc⟩
        rw [habsent] at hany
        exact Bool.noConfusion hany
    have hf2 : ssig.filter (fun p => p ≠ personId) = ssig := by
      apply List.filter_eq_self.mpr
      intro p hp
      exact decide_eq_true (fun hcon => hcache (hcon ▸ hp))
    simp only [Initiative.removeSignature]
    simp only [Bool.not_true, Bool.false_eq_true, if_false]
    rw [hf1, hf2]
  · intro sigs' st pid n fails hres'
    by_cases hdup : (fails
        || sigs'.any (fun r => r.initiativeId == st.id && r.personId == pid)) = true
    · refine ⟨(sigs', st), ?_⟩
      simp only [Initiative.addSignature, hres']
      simp only [Bool.not_true, Bool.false_eq_true, if_false]
      rw [if_pos hdup]
    · refine ⟨({ personId := pid, initiativeId := st.id, createdAt := n } :: sigs',
        { st with signatures := pid :: st.signatures }), ?_⟩
      simp only [Initiative.addSignature, hres']
      simp only [Bool.not_true, Bool.false_eq_true, if_false]
      rw [if_neg (by simpa using hdup)]

/-- Witness for C6: a concrete double-add on an empty join table, a no-op
remove, and a swallowed forced failure. -/
theorem relation_idempotence_witness :
    (∃ sigs1 self1, Initiative.addSignature []
        { id := "i-1", signatures := [], resolvedSignaturesOrganisations := true }
        "p-1" 1 false = .ok (sigs1, self1)
      ∧ ∃ sigs2 self2, Initiative.addSignature sigs1 self1 "p-1" 2 false =
          .ok (sigs2, self2)
        ∧ (sigs2.filter (fun r => r.initiativeId == "i-1" && r.personId == "p-1")).length = 1)
    ∧ Initiative.removeSignature []
        { id := "i-1", signatures := [], resolvedSignaturesOrganisations := true }
        "p-1" = .ok ([],
          { id := "i-1", signatures := [], resolvedSignaturesOrganisations := true })
    ∧ ∃ result, Initiative.addSignature []
        { id := "i-1", signatures := [], resolvedSignaturesOrganisations := true }
        "p-1" 1 true = .ok result := by
  have h := relation_idempotence []
    { id := "i-1", signatures := [], resolvedSignaturesOrganisations := true }
    "p-1" 1 2 rfl rfl
  exact ⟨h.1, h.2.1 (by simp), h.2.2 [] _ "p-1" 1 true rfl⟩

/-! ## Theorems: initiative deletion cascade (C7) -/

/-- Helper: best-effort deletion never re-adds a file. -/
theorem not_mem_rmFile (files : List String) (fsFail : String → Bool)
    (name x : String) (h : x ∉ files) : x ∉ rmFile files fsFail name := by
  simp only [rmFile]
  by_cases hf : fsFail name = true
  · rw [if_pos hf]
    exact h
  · rw [if_neg hf]
    exact fun hcon => h (List.mem_of_mem_filter hcon)

/-- Helper: after a successful best-effort deletion the file is gone. -/
theorem not_mem_rmFile_self (files : List String) (fsFail : String → Bool)
    (name : String) (h : fsFail name = false) : name ∉ rmFile files fsFail name := by
  simp only [rmFile, h, Bool.false_eq_true, if_false]
  intro hcon
  have := (List.mem_filter.mp hcon).2
  simp at this

/-- Helper: `Asset.fromName` misses any name (equal to its own basename) that
is not on disk. -/
theorem fromName_none_of_not_mem (files : List String) (name : String)
    (hb : pathBasename name = name) (h : name ∉ files) :
    Asset.fromName files name = none := by
  simp only [Asset.fromName, hb]
  rw [if_neg (by simpa using h)]

/-- C7: `Initiative.rm` is total — it never propagates a file-deletion
failure and deletes the initiative's row for EVERY outcome of the
file-deletion oracle; when the best-effort deletions succeed (`fsFail` false
on the names), `Asset.fromName` afterwards reports the PDF file and the image
file (when present) as not found. -/
theorem initiative_rm_cascade (initiatives : List InitiativeRow)
    (files : List String) (fsFail : String → Bool) (self : InitiativeRow)
    (hbp : pathBasename self.pdf = self.pdf) :
    (Initiative.rm initiatives files fsFail self).1 =
        initiatives.filter (fun r => r.id ≠ self.id)
    ∧ (fsFail self.pdf = false →
        Asset.fromName (Initiative.rm initiatives files fsFail self).2 self.pdf = none)
    ∧ (∀ imageName, self.image = some imageName →
        pathBasename imageName = imageName →
        fsFail imageName = false → imageName ≠ self.pdf →
        Asset.fromName (Initiative.rm initiatives files fsFail self).2 imageName = none) := by
  refine ⟨rfl, ?_, ?_⟩
  · intro hfs
    apply fromName_none_of_not_mem _ _ hbp
    show self.pdf ∉ rmFile (match self.image with
      | some image => rmFile files fsFail image
      | none => files) fsFail self.pdf
    exact not_mem_rmFile_self _ fsFail _ hfs
  · intro imageName himg hbi hfsi hnep
    apply fromName_none_of_not_mem _ _ hbi
    show imageName ∉ rmFile (match self.image with
      | some image => rmFile files fsFail image
      | none => files) fsFail self.pdf
    rw [himg]
    exact not_mem_rmFile _ fsFail _ _ (not_mem_rmFile_self _ fsFail _ hfsi)

/-- Witness for C7: deleting a concrete initiative removes its row while both
files disappear from disk. -/
theorem initiative_rm_cascade_witness :
    (Initiative.rm
      [{ id := "i-1", slug := "a", shortName := "a", fullName := "a",
         website := none, pdf := "p.pdf", image := some "img.png",
         deadline := none, initiatedDate := none, updatedAt := 0, createdAt := 0 }]
      ["p.pdf", "img.png", "other.pdf"] (fun _ => false)
      { id := "i-1", slug := "a", shortName := "a", fullName := "a",
        website := none, pdf := "p.pdf", image := some "img.png",
        deadline := none, initiatedDate := none, updatedAt := 0, createdAt := 0 }).1 = []
    ∧ Asset.fromName (Initiative.rm
      [{ id := "i-1", slug := "a", shortName := "a", fullName := "a",
         website := none, pdf := "p.pdf", image := some "img.png",
         deadline := none, initiatedDate := none, updatedAt := 0, createdAt := 0 }]
      ["p.pdf", "img.png", "other.pdf"] (fun _ => false)
      { id := "i-1", slug := "a", shortName := "a", fullName := "a",
        website := none, pdf := "p.pdf", image := some "img.png",
        deadline := none, initiatedDate := none, updatedAt := 0, createdAt := 0 }).2
      "p.pdf" = none
    ∧ Asset.fromName (Initiative.rm
      [{ id := "i-1", slug := "a", shortName := "a", fullName := "a",
         website := none, pdf := "p.pdf", image := some "img.png",
         deadline := none, initiatedDate := none, updatedAt := 0, createdAt := 0 }]
      ["p.pdf", "img.png", "other.pdf"] (fun _ => false)
      { id := "i-1", slug := "a", shortName := "a", fullName := "a",
        website := none, pdf := "p.pdf", image := some "img.png",
        deadline := none, initiatedDate := none, updatedAt := 0, createdAt := 0 }).2
      "img.png" = none := by
  have h := initiative_rm_cascade
    [{ id := "i-1", slug := "a", shortName := "a", fullName := "a",
       website := none, pdf := "p.pdf", image := some "img.png",
       deadline := none, initiatedDate := none, updatedAt := 0, createdAt := 0 }]
    ["p.pdf", "img.png", "other.pdf"] (fun _ => false)
    { id := "i-1", slug := "a", shortName := "a", fullName := "a",
      website := none, pdf := "p.pdf", image := some "img.png",
      deadline := none, initiatedDate := none, updatedAt := 0, createdAt := 0 }
    (by decide)
  refine ⟨?_, h.2.1 rfl, h.2.2 "img.png" rfl (by decide) rfl (by decide)⟩
  rw [h.1]
  decide

/-! ## Theorems: initiative hydration requires the PDF on disk (C10) -/

/-- Helper: a successful `mapM` over `Except` means every element mapped
successfully. -/
theorem mapM_ok_mem {α β : Type} (f : α → Except String β) :
    ∀ (l : List α) (xs : List β), l.mapM f = .ok xs → ∀ a ∈ l, ∃ b, f a = .ok b := by
  intro l
  induction l with
  | nil => intro xs _ a ha; cases ha
  | cons x t ih =>
    intro xs h a ha
    rw [List.mapM_cons] at h
    cases hfx : f x with
    | error e =>
      rw [hfx] at h
      cases h
    | ok b =>
      rw [hfx] at h
      cases hmt : t.mapM f with
      | error e =>
        rw [hmt] at h
        cases h
      | ok bs =>
        rcases List.mem_cons.mp ha with rfl | hat
        · exact ⟨b, hfx⟩
        · exact ih bs hmt a hat

/-- C10: when an initiative row references a PDF file that `Asset.fromName`
cannot find, hydration fails loudly — `fromId` and `fromSlug` return the
`'PDF ... does not exist.'` error (not `undefined`), and `all` cannot return
successfully while any such row is in the table; by contrast a row whose PDF
is present but whose optional image file is missing hydrates fine with an
absent image. -/
theorem initiative_hydration_requires_pdf (initiatives : List InitiativeRow)
    (files : List String) (row : InitiativeRow)
    (hfind : initiatives.find? (fun r => r.id == row.id) = some row)
    (hfinds : initiatives.find? (fun r => r.slug == row.slug) = some row)
    (hpdf : Asset.fromName files row.pdf = none) :
    Initiative.fromId initiatives files row.id =
        .error ("PDF " ++ row.pdf ++ " does not exist.")
    ∧ Initiative.fromSlug initiatives files row.slug =
        .error ("PDF " ++ row.pdf ++ " does not exist.")
    ∧ (row ∈ initiatives → ∀ xs, Initiative.all initiatives files ≠ .ok xs)
    ∧ (∀ (row2 : InitiativeRow) (pdfName imageName : String),
        Asset.fromName files row2.pdf = some pdfName →
        row2.image = some imageName →
        Asset.fromName files imageName = none →
        ∃ h, Initiative.fromRow files row2 = .ok h ∧ h.image = none ∧ h.pdf = pdfName) := by
  have hrow : Initiative.fromRow files row =
      .error ("PDF " ++ row.pdf ++ " does not exist.") := by
    simp only [Initiative.fromRow, hpdf]
  refine ⟨?_, ?_, ?_, ?_⟩
  · simp only [Initiative.fromId, hfind, hrow, Except.map]
  · simp only [Initiative.fromSlug, hfinds, hrow, Except.map]
  · intro hmem xs hok
    rcases mapM_ok_mem (Initiative.fromRow files) initiatives xs hok row hmem with ⟨b, hb⟩
    rw [hrow] at hb
    cases hb
  · intro row2 pdfName imageName hp hi hni
    have hval : Initiative.fromRow files row2 =
        .ok ⟨row2.id, row2.slug, row2.shortName, row2.fullName, row2.website,
             pdfName, none, row2.deadline, row2.initiatedDate, row2.updatedAt,
             row2.createdAt⟩ := by
      simp only [Initiative.fromRow, hp, hi, hni]
    exact ⟨_, hval, rfl, rfl⟩

/-- Witness for C10: a table with one row whose PDF file is absent from disk
(while an unrelated file exists) fails to hydrate by id, slug, and `all`;
adding the PDF back but losing the image hydrates with `image = none`. -/
theorem initiative_hydration_requires_pdf_witness :
    Initiative.fromId
      [{ id := "i-1", slug := "a", shortName := "a", fullName := "a",
         website := none, pdf := "p.pdf", image := none,
         deadline := none, initiatedDate := none, updatedAt := 0, createdAt := 0 }]
      ["other.pdf"] "i-1" = .error "PDF p.pdf does not exist."
    ∧ (∀ xs, Initiative.all
      [{ id := "i-1", slug := "a", shortName := "a", fullName := "a",
         website := none, pdf := "p.pdf", image := none,
         deadline := none, initiatedDate := none, updatedAt := 0, createdAt := 0 }]
      ["other.pdf"] ≠ .ok xs)
    ∧ ∃ h, Initiative.fromRow ["p.pdf"]
        { id := "i-1", slug := "a", shortName := "a", fullName := "a",
          website := none, pdf := "p.pdf", image := some "img.png",
          deadline := none, initiatedDate := none, updatedAt := 0, createdAt := 0 } =
        .ok h ∧ h.image = none ∧ h.pdf = "p.pdf" := by
  have h := initiative_hydration_requires_pdf
    [{ id := "i-1", slug := "a", shortName := "a", fullName := "a",
       website := none, pdf := "p.pdf", image := none,
       deadline := none, initiatedDate := none, updatedAt := 0, createdAt := 0 }]
    ["other.pdf"]
    { id := "i-1", slug := "a", shortName := "a", fullName := "a",
      website := none, pdf := "p.pdf", image := none,
      deadline := none, initiatedDate := none, updatedAt := 0, createdAt := 0 }
    (by decide) (by decide) (by decide)
  have h2 := initiative_hydration_requires_pdf
    [{ id := "i-1", slug := "a", shortName := "a", fullName := "a",
       website := none, pdf := "absent.pdf", image := none,
       deadline := none, initiatedDate := none, updatedAt := 0, createdAt := 0 }]
    ["p.pdf"]
    { id := "i-1", slug := "a", shortName := "a", fullName := "a",
      website := none, pdf := "absent.pdf", image := none,
      deadline := none, initiatedDate := none, updatedAt := 0, createdAt := 0 }
    (by decide) (by decide) (by decide)
  exact ⟨h.1, h.2.2.1 (by decide),
    h2.2.2.2
      { id := "i-1", slug := "a", shortName := "a", fullName := "a",
        website := none, pdf := "p.pdf", image := some "img.png",
        deadline := none, initiatedDate := none, updatedAt := 0, createdAt := 0 }
      "p.pdf" "img.png" (by decide) rfl (by decide)⟩

/-! ## Theorems: update idempotence (C3 — corrected) -/

/-- Counterexample to C3 as stated: `Initiative.updatePdf` has no
unchanged-value guard. Calling it with the asset name already stored
(`"a.pdf"`) still issues an SQL write (the returned write flag is `true`) and
still advances `updatedAt` from 1 to 5 — the claim's "no write, no
`updatedAt` bump on an unchanged value" fails for this update operation. -/
theorem update_idempotence_counterexample :
    (Initiative.updatePdf
      [{ id := "i-1", slug := "s", shortName := "sn", fullName := "fn",
         website := none, pdf := "a.pdf", image := none, deadline := none,
         initiatedDate := none, updatedAt := 1, createdAt := 1 }]
      ["a.pdf"] (fun _ => false)
      { id := "i-1", slug := "s", shortName := "sn", fullName := "fn",
        website := none, pdf := "a.pdf", image := none, deadline := none,
        initiatedDate := none, updatedAt := 1, createdAt := 1 }
      "a.pdf" 5).2.2 = true
    ∧ (Initiative.updatePdf
      [{ id := "i-1", slug := "s", shortName := "sn", fullName := "fn",
         website := none, pdf := "a.pdf", image := none, deadline := none,
         initiatedDate := none, updatedAt := 1, createdAt := 1 }]
      ["a.pdf"] (fun _ => false)
      { id := "i-1", slug := "s", shortName := "sn", fullName := "fn",
        website := none, pdf := "a.pdf", image := none, deadline := none,
        initiatedDate := none, updatedAt := 1, createdAt := 1 }
      "a.pdf" 5).2.1.updatedAt = 5 := by
  exact ⟨rfl, rfl⟩

/-- C3 amended: the equality-guarded update operations (here
`Initiative.updateFullName` as the cited representative) are no-ops on an
unchanged value and persist + bump `updatedAt` on a changed one; but
`Initiative.updatePdf` unconditionally writes and bumps `updatedAt` even when
given the stored value; and `Organisation.updateName`, while guarded, updates
only the `name` column — the organisation row carries no `updatedAt` at all,
so no timestamp is ever bumped. -/
theorem update_idempotence_amended (initiatives : List InitiativeRow)
    (organisations : List OrganisationRow) (files : List String)
    (fsFail : String → Bool) (self : InitiativeRow) (org : OrganisationRow)
    (now : Int) :
    (∀ v, v = self.fullName →
      Initiative.updateFullName initiatives self v now = (initiatives, self, false))
    ∧ (∀ v, v ≠ self.fullName →
        (Initiative.updateFullName initiatives self v now).2.2 = true
        ∧ (Initiative.updateFullName initiatives self v now).2.1.fullName = v
        ∧ (Initiative.updateFullName initiatives self v now).2.1.updatedAt = now
        ∧ (Initiative.updateFullName initiatives self v now).1 =
            initiatives.map (fun r => if r.id = self.id then
              { r with fullName := v, updatedAt := now }
            else r))
    ∧ (∀ v, (Initiative.updatePdf initiatives files fsFail self v now).2.2 = true
        ∧ (Initiative.updatePdf initiatives files fsFail self v now).2.1.pdf = v
        ∧ (Initiative.updatePdf initiatives files fsFail self v now).2.1.updatedAt = now)
    ∧ (∀ v, v = org.name →
        Organisation.updateName organisations org v = (organisations, org, false))
    ∧ (∀ v, v ≠ org.name →
        (Organisation.updateName organisations org v).2.2 = true
        ∧ (Organisation.updateName organisations org v).2.1.name = v
        ∧ (Organisation.updateName organisations org v).2.1.id = org.id
        ∧ (Organisation.updateName organisations org v).2.1.image = org.image
        ∧ (Organisation.updateName organisations org v).2.1.website = org.website) := by
  refine ⟨?_, ?_, ?_, ?_, ?_⟩
  · intro v hv
    simp [Initiative.updateFullName, hv]
  · intro v hv
    simp [Initiative.updateFullName, hv]
  · intro v
    exact ⟨rfl, rfl, rfl⟩
  · intro v hv
    simp [Organisation.updateName, hv]
  · intro v hv
    simp [Organisation.updateName, hv]

/-- Witness for C3's amended statement at concrete values. -/
theorem update_idempotence_amended_witness :
    Initiative.updateFullName []
      { id := "i-1", slug := "s", shortName := "sn", fullName := "fn",
        website := none, pdf := "a.pdf", image := none, deadline := none,
        initiatedDate := none, updatedAt := 1, createdAt := 1 }
      "fn" 5 =
      ([], { id := "i-1", slug := "s", shortName := "sn", fullName := "fn",
             website := none, pdf := "a.pdf", image := none, deadline := none,
             initiatedDate := none, updatedAt := 1, createdAt := 1 }, false)
    ∧ (Initiative.updateFullName []
      { id := "i-1", slug := "s", shortName := "sn", fullName := "fn",
        website := none, pdf := "a.pdf", image := none, deadline := none,
        initiatedDate := none, updatedAt := 1, createdAt := 1 }
      "fn2" 5).2.1.updatedAt = 5
    ∧ Organisation.updateName []
        { id := "acme", name := "Acme", image := none, website := none } "Acme" =
      ([], { id := "acme", name := "Acme", image := none, website := none }, false)
    ∧ (Organisation.updateName []
        { id := "acme", name := "Acme", image := none, website := none }
        "Acme 2").2.1.id = "acme" := by
  have h := update_idempotence_amended [] [] [] (fun _ => false)
    { id := "i-1", slug := "s", shortName := "sn", fullName := "fn",
      website := none, pdf := "a.pdf", image := none, deadline := none,
      initiatedDate := none, updatedAt := 1, createdAt := 1 }
    { id := "acme", name := "Acme", image := none, website := none } 5
  exact ⟨h.1 "fn" rfl, (h.2.1 "fn2" (by decide)).2.2.1,
    h.2.2.2.1 "Acme" rfl, (h.2.2.2.2 "Acme 2" (by decide)).2.2.1⟩

/-! ## Theorems: opaque primary identifiers (C9 — corrected) -/

/-- Counterexample to C9 as stated: creating an organisation named so that
its base slug is `"acme"` on an empty table stores `"acme"` — the
collision-resolved slug derived from the display name — as the row's primary
id. The id is regeneratable from the name, not an opaque random value
distinct from the slug. -/
theorem opaque_id_counterexample :
    (Organisation.create [] "acme" "Acme" none none).2.id = "acme"
    ∧ (Organisation.create [] "acme" "Acme" none none).2.id =
        Organisation.getOrganisationSlug [] "acme" := by
  exact ⟨rfl, rfl⟩

/-- C9 amended: Login, Session, Person and Initiative rows store a primary id
built from the injected random token with a type prefix (`l-`/`s-`/`p-`/`i-`)
— independent of the display name, unlike the regeneratable slug — while the
Organisation row's primary id is exactly its collision-resolved slug. -/
theorem opaque_id_amended (logins : List LoginRow) (sessions : List SessionRow)
    (people : List PersonRow) (initiatives : List InitiativeRow)
    (organisations : List OrganisationRow) (rand : String) (now : Int) :
    (∀ username passwordHash isAdmin st row,
      Login.create logins rand username passwordHash isAdmin now = .ok (st, row) →
      row.userId = "l-" ++ rand)
    ∧ (∀ userId, (Session.create sessions userId rand now).2.id = "s-" ++ rand)
    ∧ (∀ baseSlug name ownerId st row,
        Person.create people rand baseSlug name ownerId = .ok (st, row) →
        row.id = "p-" ++ rand ∧ row.slug = baseSlug)
    ∧ (∀ baseSlug shortName fullName pdf,
        (Initiative.create initiatives rand baseSlug shortName fullName none pdf
          none none none now).2.id = "i-" ++ rand
        ∧ (Initiative.create initiatives rand baseSlug shortName fullName none pdf
            none none none now).2.slug =
          Initiative.getInitiativeSlug initiatives baseSlug none)
    ∧ (∀ baseSlug name,
        (Organisation.create organisations baseSlug name none none).2.id =
          Organisation.getOrganisationSlug organisations baseSlug) := by
  refine ⟨?_, ?_, ?_, ?_, ?_⟩
  · intro username passwordHash isAdmin st row h
    simp only [Login.create] at h
    cases hfu : Login.fromUsername logins username with
    | some r => rw [hfu] at h; cases h
    | none =>
      rw [hfu] at h
      injection h with h1
      injection h1 with h1 h2
      rw [← h2]
  · intro userId
    rfl
  · intro baseSlug name ownerId st row h
    simp only [Person.create] at h
    cases hfs : Person.fromSlug people baseSlug ownerId with
    | some r => rw [hfs] at h; cases h
    | none =>
      rw [hfs] at h
      injection h with h1
      injection h1 with h1 h2
      rw [← h2]
      exact ⟨rfl, rfl⟩
  · intro baseSlug shortName fullName pdf
    exact ⟨rfl, rfl⟩
  · intro baseSlug name
    rfl

/-- Witness for C9's amended statement at concrete values. -/
theorem opaque_id_amended_witness :
    (∃ st row, Login.create [] "tok" "admin" "hash" true 0 = .ok (st, row)
      ∧ row.userId = "l-tok")
    ∧ (Session.create [] "l-u" "tok" 0).2.id = "s-tok"
    ∧ (∃ st row, Person.create [] "tok" "joe" "Joe" "l-u" = .ok (st, row)
      ∧ row.id = "p-tok" ∧ row.slug = "joe")
    ∧ (Organisation.create [] "acme" "Acme" none none).2.id =
        Organisation.getOrganisationSlug [] "acme" := by
  have h := opaque_id_amended [] [] [] [] [] "tok" 0
  refine ⟨?_, h.2.1 "l-u", ?_, h.2.2.2.2 "acme" "Acme"⟩
  · exact ⟨_, _, rfl, h.1 "admin" "hash" true _ _ rfl⟩
  · exact ⟨_, _, rfl, h.2.2.1 "joe" "Joe" "l-u" _ _ rfl⟩

/-! ## Theorems: slug uniqueness (C1 — corrected) -/

/-- Helper: a suffixed candidate differs from the bare base slug. -/
theorem candidateSlug_succ_ne_base (base : String) (k : Nat) (hk : k ≠ 0) :
    candidateSlug base k ≠ candidateSlug base 0 := by
  have e0 : candidateSlug base 0 = base := rfl
  have ek : candidateSlug base k = base ++ "-" ++ toString k := by
    simp [candidateSlug, hk]
  rw [e0, ek]
  intro h
  have hlen := congrArg String.length h
  rw [String.length_append, String.length_append] at hlen
  have hdash : ("-" : String).length = 1 := rfl
  rw [hdash] at hlen
  omega

/-- Helper: the first and second suffixed candidates differ. -/
theorem candidateSlug_one_ne_two (base : String) :
    candidateSlug base 1 ≠ candidateSlug base 2 := by
  have e1 : candidateSlug base 1 = base ++ "-" ++ toString (1 : Nat) := rfl
  have e2 : candidateSlug base 2 = base ++ "-" ++ toString (2 : Nat) := rfl
  rw [e1, e2]
  intro h
  have hd := congrArg String.data h
  rw [String.data_append, String.data_append, String.data_append,
    String.data_append] at hd
  exact absurd (List.append_cancel_left hd) (by decide)

/-- Helper: one unfolding of the initiative slug loop at a free candidate. -/
theorem getInitiativeSlugLoop_free (initiatives : List InitiativeRow)
    (cur : Option String) (base : String) (fuel counter : Nat)
    (h : Initiative.slugIsFree initiatives cur (candidateSlug base counter) = true) :
    Initiative.getInitiativeSlugLoop initiatives cur base (fuel + 1) counter =
      candidateSlug base counter := by
  simp [Initiative.getInitiativeSlugLoop, h]

/-- Helper: one unfolding of the initiative slug loop at a taken candidate. -/
theorem getInitiativeSlugLoop_busy (initiatives : List InitiativeRow)
    (cur : Option String) (base : String) (fuel counter : Nat)
    (h : Initiative.slugIsFree initiatives cur (candidateSlug base counter) = false) :
    Initiative.getInitiativeSlugLoop initiatives cur base (fuel + 1) counter =
      Initiative.getInitiativeSlugLoop initiatives cur base fuel (counter + 1) := by
  simp [Initiative.getInitiativeSlugLoop, h]

/-- Helper: one unfolding of the organisation slug loop at a free candidate. -/
theorem getOrganisationSlugLoop_free (organisations : List OrganisationRow)
    (base : String) (fuel counter : Nat)
    (h : Organisation.idQuery organisations (candidateSlug base counter) = none) :
    Organisation.getOrganisationSlugLoop organisations base (fuel + 1) counter =
      candidateSlug base counter := by
  simp [Organisation.getOrganisationSlugLoop, h]

/-- Helper: one unfolding of the organisation slug loop at a taken candidate. -/
theorem getOrganisationSlugLoop_busy (organisations : List OrganisationRow)
    (base : String) (fuel counter : Nat) (id : String)
    (h : Organisation.idQuery organisations (candidateSlug base counter) = some id) :
    Organisation.getOrganisationSlugLoop organisations base (fuel + 1) counter =
      Organisation.getOrganisationSlugLoop organisations base fuel (counter + 1) := by
  simp [Organisation.getOrganisationSlugLoop, h]

/-- Counterexample to C1 as stated: for the Person aggregate there is no
numeric-suffix collision loop. With a person whose slug is `"joe"` already
stored for the same owner, creating a second person whose name yields the
same base slug does not produce `"joe-1"` — `Person.create` throws the
duplicate-name error instead. -/
theorem slug_uniqueness_counterexample :
    Person.create [⟨"p-a", "joe", "Joe", "l-1"⟩] "tok" "joe" "Joe Again" "l-1" =
      .error "Person with the same name exists already." := by
  rfl

/-- C1 amended: the create-time numeric-suffix sequence (`base`, `base-1`)
holds for Initiative and Organisation (global scope); renaming a third
colliding aggregate continues the sequence (`base-2`) for Initiative only,
whose rename excludes its own row from the collision check so renaming to a
name whose base slug equals its own current slug keeps that slug; an
Organisation rename never regenerates its slug/id at all; and for Person
(per-owner scope) a colliding create is rejected with an error instead of
being suffix-resolved. -/
theorem slug_uniqueness_amended (initiatives : List InitiativeRow)
    (base sn1 fn1 pdf1 sn2 fn2 pdf2 rand1 rand2 : String) (now1 now2 : Int)
    (hfree : ∀ r ∈ initiatives, r.slug ≠ candidateSlug base 0 ∧
      r.slug ≠ candidateSlug base 1 ∧ r.slug ≠ candidateSlug base 2) :
    (Initiative.create initiatives rand1 base sn1 fn1 none pdf1 none none none
        now1).2.slug = candidateSlug base 0
    ∧ (Initiative.create
        (Initiative.create initiatives rand1 base sn1 fn1 none pdf1 none none none now1).1
        rand2 base sn2 fn2 none pdf2 none none none now2).2.slug = candidateSlug base 1
    ∧ (∀ (self : InitiativeRow) (newShortName : String) (now3 : Int),
        "i-" ++ rand1 ≠ self.id → "i-" ++ rand2 ≠ self.id →
        newShortName ≠ self.shortName →
        (Initiative.updateShortName
          (Initiative.create
            (Initiative.create initiatives rand1 base sn1 fn1 none pdf1 none none none now1).1
            rand2 base sn2 fn2 none pdf2 none none none now2).1
          self newShortName base now3).2.1.slug = candidateSlug base 2)
    ∧ (∀ (inits2 : List InitiativeRow) (self : InitiativeRow)
        (newShortName : String) (now4 : Int),
        (∀ r ∈ inits2, r.slug = self.slug → r.id = self.id) →
        newShortName ≠ self.shortName →
        (Initiative.updateShortName inits2 self newShortName self.slug
          now4).2.1.slug = self.slug)
    ∧ (∀ (organisations : List OrganisationRow) (name1 name2 : String),
        (∀ r ∈ organisations, r.id ≠ candidateSlug base 0 ∧
          r.id ≠ candidateSlug base 1) →
        (Organisation.create organisations base name1 none none).2.id =
            candidateSlug base 0
        ∧ (Organisation.create
            (Organisation.create organisations base name1 none none).1
            base name2 none none).2.id = candidateSlug base 1)
    ∧ (∀ (organisations : List OrganisationRow) (self : OrganisationRow)
        (newName : String),
        (Organisation.updateName organisations self newName).2.1.id = self.id)
    ∧ (∀ (people : List PersonRow) (rand name ownerId : String),
        (Person.fromSlug people base ownerId = none →
          ∃ st row, Person.create people rand base name ownerId = .ok (st, row)
            ∧ row.slug = base)
        ∧ (∀ r, Person.fromSlug people base ownerId = some r →
            Person.create people rand base name ownerId =
              .error "Person with the same name exists already.")) := by
  have hbeq01 : (candidateSlug base 0 == candidateSlug base 1) = false :=
    beq_eq_false_iff_ne.mpr
      (fun h => candidateSlug_succ_ne_base base 1 one_ne_zero h.symm)
  have hbeq10 : (candidateSlug base 1 == candidateSlug base 0) = false :=
    beq_eq_false_iff_ne.mpr (candidateSlug_succ_ne_base base 1 one_ne_zero)
  have hbeq02 : (candidateSlug base 0 == candidateSlug base 2) = false :=
    beq_eq_false_iff_ne.mpr
      (fun h => candidateSlug_succ_ne_base base 2 (by decide) h.symm)
  have hbeq12 : (candidateSlug base 1 == candidateSlug base 2) = false :=
    beq_eq_false_iff_ne.mpr (candidateSlug_one_ne_two base)
  have hq0 : Initiative.slugQuery initiatives (candidateSlug base 0) = none := by
    simp only [Initiative.slugQuery]
    rw [List.find?_eq_none.mpr (fun r hr => by simpa using (hfree r hr).1)]
    rfl
  have hfree0 : Initiative.slugIsFree initiatives none (candidateSlug base 0) = true := by
    simp [Initiative.slugIsFree, hq0]
  have hs1 : Initiative.getInitiativeSlug initiatives base none = candidateSlug base 0 := by
    unfold Initiative.getInitiativeSlug
    exact getInitiativeSlugLoop_free initiatives none base initiatives.length 0 hfree0
  have hcreate1 : Initiative.create initiatives rand1 base sn1 fn1 none pdf1 none
      none none now1 =
      (⟨"i-" ++ rand1, candidateSlug base 0, sn1, fn1, none, pdf1, none, none, none, now1, now1⟩ :: initiatives,
       ⟨"i-" ++ rand1, candidateSlug base 0, sn1, fn1, none, pdf1, none, none, none, now1, now1⟩) := by
    simp only [Initiative.create, orUndefined, hs1]
  have hq1_0 : Initiative.slugQuery
      (⟨"i-" ++ rand1, candidateSlug base 0, sn1, fn1, none, pdf1, none, none, none, now1, now1⟩ :: initiatives)
      (candidateSlug base 0) = some ("i-" ++ rand1) := by
    simp only [Initiative.slugQuery]
    rw [List.find?_cons_of_pos _ (by simp)]
    rfl
  have hbusy1_0 : Initiative.slugIsFree
      (⟨"i-" ++ rand1, candidateSlug base 0, sn1, fn1, none, pdf1, none, none, none, now1, now1⟩ :: initiatives)
      none (candidateSlug base 0) = false := by
    simp [Initiative.slugIsFree, hq1_0]
  have hq1_1 : Initiative.slugQuery
      (⟨"i-" ++ rand1, candidateSlug base 0, sn1, fn1, none, pdf1, none, none, none, now1, now1⟩ :: initiatives)
      (candidateSlug base 1) = none := by
    simp only [Initiative.slugQuery]
    rw [List.find?_cons_of_neg _ (by simp [hbeq01]),
      List.find?_eq_none.mpr (fun r hr => by simpa using (hfree r hr).2.1)]
    rfl
  have hfree1_1 : Initiative.slugIsFree
      (⟨"i-" ++ rand1, candidateSlug base 0, sn1, fn1, none, pdf1, none, none, none, now1, now1⟩ :: initiatives)
      none (candidateSlug base 1) = true := by
    simp [Initiative.slugIsFree, hq1_1]
  have hs2 : Initiative.getInitiativeSlug
      (⟨"i-" ++ rand1, candidateSlug base 0, sn1, fn1, none, pdf1, none, none, none, now1, now1⟩ :: initiatives)
      base none = candidateSlug base 1 := by
    unfold Initiative.getInitiativeSlug
    rw [show (⟨"i-" ++ rand1, candidateSlug base 0, sn1, fn1, none, pdf1, none, none, none, now1, now1⟩ :: initiatives).length + 1 = (initiatives.length + 1) + 1 from by simp]
    rw [getInitiativeSlugLoop_busy _ _ _ _ _ hbusy1_0]
    exact getInitiativeSlugLoop_free _ _ _ _ _ hfree1_1
  refine ⟨hs1, ?_, ?_, ?_, ?_, ?_, ?_⟩
  · rw [hcreate1]
    exact hs2
  · intro self newShortName now3 hid1 hid2 hne
    rw [hcreate1]
    have hcreate2 : Initiative.create
        (⟨"i-" ++ rand1, candidateSlug base 0, sn1, fn1, none, pdf1, none, none, none, now1, now1⟩ :: initiatives)
        rand2 base sn2 fn2 none pdf2 none none none now2 =
        (⟨"i-" ++ rand2, candidateSlug base 1, sn2, fn2, none, pdf2, none, none, none, now2, now2⟩ ::
          ⟨"i-" ++ rand1, candidateSlug base 0, sn1, fn1, none, pdf1, none, none, none, now1, now1⟩ :: initiatives,
         ⟨"i-" ++ rand2, candidateSlug base 1, sn2, fn2, none, pdf2, none, none, none, now2, now2⟩) := by
      simp only [Initiative.create, orUndefined, hs2]
    rw [hcreate2]
    have hq2_0 : Initiative.slugQuery
        (⟨"i-" ++ rand2, candidateSlug base 1, sn2, fn2, none, pdf2, none, none, none, now2, now2⟩ ::
          ⟨"i-" ++ rand1, candidateSlug base 0, sn1, fn1, none, pdf1, none, none, none, now1, now1⟩ :: initiatives)
        (candidateSlug base 0) = some ("i-" ++ rand1) := by
      simp only [Initiative.slugQuery]
      rw [List.find?_cons_of_neg _ (by simp [hbeq10]),
        List.find?_cons_of_pos _ (by simp)]
      rfl
    have hbusy2_0 : Initiative.slugIsFree
        (⟨"i-" ++ rand2, candidateSlug base 1, sn2, fn2, none, pdf2, none, none, none, now2, now2⟩ ::
          ⟨"i-" ++ rand1, candidateSlug base 0, sn1, fn1, none, pdf1, none, none, none, now1, now1⟩ :: initiatives)
        (some self.id) (candidateSlug base 0) = false := by
      have hne1 : (self.id == "i-" ++ rand1) = false :=
        beq_eq_false_iff_ne.mpr (Ne.symm hid1)
      simp [Initiative.slugIsFree, hq2_0, hne1]
    have hq2_1 : Initiative.slugQuery
        (⟨"i-" ++ rand2, candidateSlug base 1, sn2, fn2, none, pdf2, none, none, none, now2, now2⟩ ::
          ⟨"i-" ++ rand1, candidateSlug base 0, sn1, fn1, none, pdf1, none, none, none, now1, now1⟩ :: initiatives)
        (candidateSlug base 1) = some ("i-" ++ rand2) := by
      simp only [Initiative.slugQuery]
      rw [List.find?_cons_of_pos _ (by simp)]
      rfl
    have hbusy2_1 : Initiative.slugIsFree
        (⟨"i-" ++ rand2, candidateSlug base 1, sn2, fn2, none, pdf2, none, none, none, now2, now2⟩ ::
          ⟨"i-" ++ rand1, candidateSlug base 0, sn1, fn1, none, pdf1, none, none, none, now1, now1⟩ :: initiatives)
        (some self.id) (candidateSlug base 1) = false := by
      have hne2 : (self.id == "i-" ++ rand2) = false :=
        beq_eq_false_iff_ne.mpr (Ne.symm hid2)
      simp [Initiative.slugIsFree, hq2_1, hne2]
    have hq2_2 : Initiative.slugQuery
        (⟨"i-" ++ rand2, candidateSlug base 1, sn2, fn2, none, pdf2, none, none, none, now2, now2⟩ ::
          ⟨"i-" ++ rand1, candidateSlug base 0, sn1, fn1, none, pdf1, none, none, none, now1, now1⟩ :: initiatives)
        (candidateSlug base 2) = none := by
      simp only [Initiative.slugQuery]
      rw [List.find?_cons_of_neg _ (by simp [hbeq12]),
        List.find?_cons_of_neg _ (by simp [hbeq02]),
        List.find?_eq_none.mpr (fun r hr => by simpa using (hfree r hr).2.2)]
      rfl
    have hfree2_2 : Initiative.slugIsFree
        (⟨"i-" ++ rand2, candidateSlug base 1, sn2, fn2, none, pdf2, none, none, none, now2, now2⟩ ::
          ⟨"i-" ++ rand1, candidateSlug base 0, sn1, fn1, none, pdf1, none, none, none, now1, now1⟩ :: initiatives)
        (some self.id) (candidateSlug base 2) = true := by
      simp [Initiative.slugIsFree, hq2_2]
    have hs3 : Initiative.getInitiativeSlug
        (⟨"i-" ++ rand2, candidateSlug base 1, sn2, fn2, none, pdf2, none, none, none, now2, now2⟩ ::
          ⟨"i-" ++ rand1, candidateSlug base 0, sn1, fn1, none, pdf1, none, none, none, now1, now1⟩ :: initiatives)
        base (some self.id) = candidateSlug base 2 := by
      unfold Initiative.getInitiativeSlug
      rw [show (⟨"i-" ++ rand2, candidateSlug base 1, sn2, fn2, none, pdf2, none, none, none, now2, now2⟩ ::
          ⟨"i-" ++ rand1, candidateSlug base 0, sn1, fn1, none, pdf1, none, none, none, now1, now1⟩ :: initiatives).length + 1 = ((initiatives.length + 1) + 1) + 1 from by simp]
      rw [getInitiativeSlugLoop_busy _ _ _ _ _ hbusy2_0,
        getInitiativeSlugLoop_busy _ _ _ _ _ hbusy2_1]
      exact getInitiativeSlugLoop_free _ _ _ _ _ hfree2_2
    simp only [Initiative.updateShortName, if_neg hne]
    exact hs3
  · intro inits2 self newShortName now4 huniq hne
    have hfreeself : Initiative.slugIsFree inits2 (some self.id)
        (candidateSlug self.slug 0) = true := by
      simp only [Initiative.slugIsFree, Initiative.slugQuery]
      cases hf : inits2.find? (fun r => r.slug == candidateSlug self.slug 0) with
      | none => simp
      | some r =>
        have hpr := List.find?_some hf
        have hrs : r.slug = candidateSlug self.slug 0 := eq_of_beq (by simpa using hpr)
        have hrid : r.id = self.id :=
          huniq r (List.mem_of_find?_eq_some hf) hrs
        simp [hrid]
    simp only [Initiative.updateShortName, if_neg hne]
    show Initiative.getInitiativeSlug inits2 self.slug (some self.id) = self.slug
    unfold Initiative.getInitiativeSlug
    exact getInitiativeSlugLoop_free inits2 (some self.id) self.slug
      inits2.length 0 hfreeself
  · intro organisations name1 name2 horg
    have hoq0 : Organisation.idQuery organisations (candidateSlug base 0) = none := by
      simp only [Organisation.idQuery]
      rw [List.find?_eq_none.mpr (fun r hr => by simpa using (horg r hr).1)]
      rfl
    have hos1 : Organisation.getOrganisationSlug organisations base =
        candidateSlug base 0 := by
      unfold Organisation.getOrganisationSlug
      exact getOrganisationSlugLoop_free organisations base organisations.length 0 hoq0
    refine ⟨hos1, ?_⟩
    have hocreate1 : Organisation.create organisations base name1 none none =
        (⟨candidateSlug base 0, name1, none, none⟩ :: organisations,
         ⟨candidateSlug base 0, name1, none, none⟩) := by
      simp only [Organisation.create, orUndefined, hos1]
    rw [hocreate1]
    have hoq1_0 : Organisation.idQuery
        (⟨candidateSlug base 0, name1, none, none⟩ :: organisations)
        (candidateSlug base 0) = some (candidateSlug base 0) := by
      simp only [Organisation.idQuery]
      rw [List.find?_cons_of_pos _ (by simp)]
      rfl
    have hoq1_1 : Organisation.idQuery
        (⟨candidateSlug base 0, name1, none, none⟩ :: organisations)
        (candidateSlug base 1) = none := by
      simp only [Organisation.idQuery]
      rw [List.find?_cons_of_neg _ (by simp [hbeq01]),
        List.find?_eq_none.mpr (fun r hr => by simpa using (horg r hr).2)]
      rfl
    show Organisation.getOrganisationSlug
      (⟨candidateSlug base 0, name1, none, none⟩ :: organisations) base =
      candidateSlug base 1
    unfold Organisation.getOrganisationSlug
    rw [show (⟨candidateSlug base 0, name1, none, none⟩ :: organisations).length + 1 = (organisations.length + 1) + 1 from by simp]
    rw [getOrganisationSlugLoop_busy _ _ _ _ _ hoq1_0]
    exact getOrganisationSlugLoop_free _ _ _ _ hoq1_1
  · intro organisations self newName
    by_cases hv : newName = self.name
    · simp [Organisation.updateName, hv]
    · simp [Organisation.updateName, hv]
  · intro people rand name ownerId
    constructor
    · intro h
      refine ⟨⟨"p-" ++ rand, base, name, ownerId⟩ :: people,
        ⟨"p-" ++ rand, base, name, ownerId⟩, ?_, rfl⟩
      simp only [Person.create, h]
    · intro r h
      simp only [Person.create, h]

/-- Witness for C1's amended statement: with one unrelated initiative
(slug `"zzz"`) in store, two creates with base `"a"` take `"a"` and `"a-1"`,
renaming the third to the same base takes `"a-2"`, renaming it to its own
slug-root keeps `"zzz"`; organisations take `"a"` then `"a-1"` and keep their
id across renames; a person create takes the bare base slug, and a colliding
person create errors. -/
theorem slug_uniqueness_amended_witness :
    (Initiative.create
      [⟨"i-x", "zzz", "Old", "OldFull", none, "z.pdf", none, none, none, 0, 0⟩]
      "A" "a" "Sn1" "Fn1" none "p1.pdf" none none none 1).2.slug = "a"
    ∧ (Initiative.create
        (Initiative.create
          [⟨"i-x", "zzz", "Old", "OldFull", none, "z.pdf", none, none, none, 0, 0⟩]
          "A" "a" "Sn1" "Fn1" none "p1.pdf" none none none 1).1
        "B" "a" "Sn2" "Fn2" none "p2.pdf" none none none 2).2.slug = "a-1"
    ∧ (Initiative.updateShortName
        (Initiative.create
          (Initiative.create
            [⟨"i-x", "zzz", "Old", "OldFull", none, "z.pdf", none, none, none, 0, 0⟩]
            "A" "a" "Sn1" "Fn1" none "p1.pdf" none none none 1).1
          "B" "a" "Sn2" "Fn2" none "p2.pdf" none none none 2).1
        ⟨"i-x", "zzz", "Old", "OldFull", none, "z.pdf", none, none, none, 0, 0⟩
        "Renamed" "a" 3).2.1.slug = "a-2"
    ∧ (Initiative.updateShortName
        [⟨"i-x", "zzz", "Old", "OldFull", none, "z.pdf", none, none, none, 0, 0⟩]
        ⟨"i-x", "zzz", "Old", "OldFull", none, "z.pdf", none, none, none, 0, 0⟩
        "Another" "zzz" 4).2.1.slug = "zzz"
    ∧ (Organisation.create [] "a" "Acme" none none).2.id = "a"
    ∧ (Organisation.create (Organisation.create [] "a" "Acme" none none).1
        "a" "Acme 2" none none).2.id = "a-1"
    ∧ (Organisation.updateName [] ⟨"acme", "Acme", none, none⟩ "New").2.1.id = "acme"
    ∧ (∃ st row, Person.create [] "tok" "a" "Joe" "l-1" = .ok (st, row)
        ∧ row.slug = "a")
    ∧ Person.create [⟨"p-a", "a", "X", "l-1"⟩] "tok2" "a" "Joe" "l-1" =
        .error "Person with the same name exists already." := by
  have h := slug_uniqueness_amended
    [⟨"i-x", "zzz", "Old", "OldFull", none, "z.pdf", none, none, none, 0, 0⟩]
    "a" "Sn1" "Fn1" "p1.pdf" "Sn2" "Fn2" "p2.pdf" "A" "B" 1 2 (by decide)
  refine ⟨h.1, h.2.1,
    h.2.2.1 ⟨"i-x", "zzz", "Old", "OldFull", none, "z.pdf", none, none, none, 0, 0⟩
      "Renamed" 3 (by decide) (by decide) (by decide),
    h.2.2.2.1
      [⟨"i-x", "zzz", "Old", "OldFull", none, "z.pdf", none, none, none, 0, 0⟩]
      ⟨"i-x", "zzz", "Old", "OldFull", none, "z.pdf", none, none, none, 0, 0⟩
      "Another" 4 (by decide) (by decide),
    (h.2.2.2.2.1 [] "Acme" "Acme 2" (by decide)).1,
    (h.2.2.2.2.1 [] "Acme" "Acme 2" (by decide)).2,
    h.2.2.2.2.2.1 [] ⟨"acme", "Acme", none, none⟩ "New",
    ?_, ?_⟩
  · exact (h.2.2.2.2.2.2 [] "tok" "Joe" "l-1").1 rfl
  · exact (h.2.2.2.2.2.2 [⟨"p-a", "a", "X", "l-1"⟩] "tok2" "Joe" "l-1").2
      ⟨"p-a", "a", "X", "l-1"⟩ rfl
